import Mathlib

/-!
# multikind: rendering of the kind cluster configuration

A shallow embedding of `pkg/template/kind_template.go`: the `KindFileTemplate`
struct, `NewKindTemplate`, `Populate`, `Execute` and the template text
`kindDefaultFileTemplate`, together with the fragment of Go's `html/template`
that this template exercises (trim markers, field actions, `if`, `range`, and the
HTML escaper applied to every action in text context).

Modelling choices:
* a Go `string` is a Lean `String` (a sequence of Unicode characters; the escaper
  works rune by rune, which on valid UTF-8 is character by character);
* a Go `int` is an `Int` (the template only compares it with 0 and prints it);
* a Go slice is a `List` (a nil slice and an empty slice behave alike here);
* the template text is given as the list of its lexical items, each text item holding
  the source text between two actions verbatim; trimming and parsing are done by
  `lexTrim` and `parseItems`;
* the template text has no `<`, so all of it is in HTML text context and every
  action is followed by the escaper `htmlEscaper`;
* the writer is the string written so far; `Execute` returns the writer and the error.
-/

namespace Multikind

/-! ## Data of package `machine` used by the template -/

/-- The pair `machine.ExportPortPair`: both fields are Go `int`s. -/
structure ExportPortPair where
  HostPort : Int
  ContainerPort : Int
deriving DecidableEq, Repr

/-- The pair `machine.NodeLabel`, as built by the tests' `GetNodeLabels`. -/
structure NodeLabel where
  Key : String
  Value : String
deriving DecidableEq, Repr

/-- The method set of the `KindConfiger` interface, as `Populate` calls it. -/
structure KindConfiger where
  GetName : String
  GetKubeAPIPort : Int
  GetKubeAPIIP : String
  GetGPUs : Int
  GetExportPorts : List ExportPortPair
  AuditEnabled : Bool
  AuditFileAbsolutePath : String
  GetWorkerIDs : List Int
deriving DecidableEq, Repr

/-- A configuration type that, besides the `KindConfiger` methods, also has the
methods `GetNodeLabels` and `LocalPath` (the tests' `staticConfig` and `auditConfig`
define them). They are not part of the interface. -/
structure LabelledConfig extends KindConfiger where
  GetNodeLabels : List NodeLabel
  LocalPath : String
deriving DecidableEq, Repr

/-- The dynamic argument `v interface{}` of `Populate`: either a value whose type
implements `KindConfiger`, or anything else. -/
inductive Dynamic where
  | implementsKindConfiger (c : KindConfiger)
  | other
deriving DecidableEq, Repr

/-! ## Template source: items as the lexer sees them -/

/-- The pipelines that occur in the template: `.Field` and `$var.Field`. -/
inductive Pipe where
  | field (name : String)
  | varField (var : String) (name : String)
deriving DecidableEq, Repr

/-- What stands between the delimiters of one action. -/
inductive Action where
  | print (p : Pipe)
  | ifStart (p : Pipe)
  | rangeStart (vars : List String) (p : Pipe)
  | endBlock
deriving DecidableEq, Repr

/-- One lexical item: literal text, or an action with its left and right trim
markers (the `-` after the opening and before the closing delimiter). -/
inductive Item where
  | text (s : String)
  | action (trimLeft : Bool) (a : Action) (trimRight : Bool)
deriving DecidableEq, Repr

/-- The template text `kindDefaultFileTemplate`, item by item in source order. -/
def kindDefaultFileTemplate : List Item := [
  .text "\nkind: Cluster\napiVersion: kind.x-k8s.io/v1alpha4\nname: ",
  .action false (.print (.field "Name")) false,
  .text "\nnodes:\n- role: control-plane\n  kubeadmConfigPatches:\n  ",
  .action true (.ifStart (.field "AuditEnabled")) false,
  .text "\n  - |\n    kind: ClusterConfiguration\n    apiServer:\n      # enable auditing flags on the API server\n      extraArgs:\n        audit-log-path: /var/log/kubernetes/kube-apiserver-audit.log\n        audit-policy-file: /etc/kubernetes/policies/audit-policy.yaml\n        audit-log-maxage: \"30\"\n        audit-log-maxbackup: \"10\"\n        audit-log-maxsize: \"100\"\n      # mount new files / directories on the control plane\n      extraVolumes:\n        - name: audit-policies\n          hostPath: /etc/kubernetes/policies\n          mountPath: /etc/kubernetes/policies\n          readOnly: true\n          pathType: \"DirectoryOrCreate\"\n        - name: \"audit-logs\"\n          hostPath: \"/var/log/kubernetes\"\n          mountPath: \"/var/log/kubernetes\"\n          readOnly: false\n          pathType: DirectoryOrCreate\n  ",
  .action true .endBlock false,
  .text "\n  - |\n    kind: InitConfiguration\n    nodeRegistration:\n      kubeletExtraArgs:\n        node-labels: \"ingress-ready=true\"\n  image: kindest/node:v1.23.12@sha256:9402cf1330bbd3a0d097d2033fa489b2abe40d479cc5ef47d0b6a6960613148a\n  gpus: ",
  .action false (.print (.field "UseGPU")) false,
  .text "\n  ",
  .action false (.ifStart (.field "ExportPorts")) false,
  .text "extraPortMappings:",
  .action false .endBlock false,
  .text "\n  ",
  .action true (.rangeStart ["i", "p"] (.field "ExportPorts")) false,
  .text "\n  - containerPort: ",
  .action false (.print (.varField "p" "ContainerPort")) false,
  .text "\n    hostPort: ",
  .action false (.print (.varField "p" "HostPort")) false,
  .text "\n    protocol: TCP\n  ",
  .action true .endBlock false,
  .text "\n  ",
  .action true (.ifStart (.field "AuditEnabled")) false,
  .text "\n  # mount the local file on the control plane\n  extraMounts:\n  - hostPath: ",
  .action false (.print (.field "AuditFileAbsolutePath")) false,
  .text "\n    containerPath: /etc/kubernetes/policies/audit-policy.yaml\n    readOnly: true\n  ",
  .action true .endBlock false,
  .text "\n",
  .action true (.rangeStart [] (.field "WorkerIDs")) false,
  .text "\n- role: worker\n  image: kindest/node:v1.23.12@sha256:9402cf1330bbd3a0d097d2033fa489b2abe40d479cc5ef47d0b6a6960613148a\n",
  .action true .endBlock false,
  .text "\nnetworking:\n  apiServerAddress: ",
  .action false (.print (.field "KubeAPIIP")) false,
  .text "\n  apiServerPort: ",
  .action false (.print (.field "KubeAPIPort")) false,
  .text "\n"]

/-! ## The `KindFileTemplate` struct -/

/-- The struct `KindFileTemplate`. -/
structure KindFileTemplate where
  Name : String
  KubeAPIIP : String
  KubeAPIPort : Int
  UseGPU : Bool
  kindFileTemplate : List Item
  ExportPorts : List ExportPortPair
  AuditEnabled : Bool
  AuditFileAbsolutePath : String
  WorkerIDs : List Int
deriving DecidableEq, Repr

/-- Constructor `NewKindTemplate`: every field zero except the template text. -/
def NewKindTemplate : KindFileTemplate :=
  { Name := "", KubeAPIIP := "", KubeAPIPort := 0, UseGPU := false,
    kindFileTemplate := kindDefaultFileTemplate, ExportPorts := [],
    AuditEnabled := false, AuditFileAbsolutePath := "", WorkerIDs := [] }

/-- Method `Filename`. -/
def KindFileTemplate.Filename (_k : KindFileTemplate) : String := "kind-config.yaml"

/-- Method `Populate`: the new state of the receiver and the returned error. -/
def KindFileTemplate.Populate (k : KindFileTemplate) (v : Dynamic) :
    KindFileTemplate × Option String :=
  match v with
  | .other => (k, some "not implements kindConfig interface")
  | .implementsKindConfiger c =>
    ({ k with
        Name := c.GetName
        KubeAPIPort := c.GetKubeAPIPort
        KubeAPIIP := c.GetKubeAPIIP
        UseGPU := decide (c.GetGPUs > 0)
        ExportPorts := c.GetExportPorts
        AuditEnabled := c.AuditEnabled
        AuditFileAbsolutePath := c.AuditFileAbsolutePath
        WorkerIDs := c.GetWorkerIDs }, none)

/-! ## Lexing: trim markers -/

/-- The lexer's space characters. -/
def isSpace (c : Char) : Bool :=
  c = ' ' || c = '\t' || c = '\r' || c = '\n'

/-- Text with its trailing spaces removed (a following left trim marker). -/
def rightTrim (s : String) : String :=
  String.mk (s.data.reverse.dropWhile isSpace).reverse

/-- Text with its leading spaces removed (a preceding right trim marker). -/
def leftTrim (s : String) : String :=
  String.mk (s.data.dropWhile isSpace)

/-- Does the next item trim the text before it? -/
def nextTrimsLeft : List Item → Bool
  | .action true _ _ :: _ => true
  | _ => false

/-- Apply the trim markers to the text items; text that becomes empty is dropped.
`prev` tells whether the preceding action carried a right trim marker. -/
def lexTrim : Bool → List Item → List Item
  | _, [] => []
  | prev, .text s :: rest =>
    let s1 := if prev then leftTrim s else s
    let s2 := if nextTrimsLeft rest then rightTrim s1 else s1
    if s2 = "" then lexTrim false rest else .text s2 :: lexTrim false rest
  | _, .action l a r :: rest => .action l a r :: lexTrim r rest

/-! ## Parsing: the tree of nodes -/

/-- A node of the parsed template. -/
inductive Node where
  | text (s : String)
  | action (p : Pipe)
  | ifNode (p : Pipe) (list : List Node)
  | rangeNode (vars : List String) (p : Pipe) (list : List Node)
deriving Repr

/-- An open `if` or `range` with the nodes that precede it at its level. -/
inductive Frame where
  | ifFrame (p : Pipe) (outer : List Node)
  | rangeFrame (vars : List String) (p : Pipe) (outer : List Node)

/-- Build the tree: `cur` holds the nodes of the current level, newest first. -/
def parseItems : List Item → List Frame → List Node → Except String (List Node)
  | [], [], cur => .ok cur.reverse
  | [], _ :: _, _ => .error "unexpected EOF"
  | .text s :: rest, st, cur => parseItems rest st (.text s :: cur)
  | .action _ (.print p) _ :: rest, st, cur => parseItems rest st (.action p :: cur)
  | .action _ (.ifStart p) _ :: rest, st, cur => parseItems rest (.ifFrame p cur :: st) []
  | .action _ (.rangeStart vs p) _ :: rest, st, cur =>
    parseItems rest (.rangeFrame vs p cur :: st) []
  | .action _ .endBlock _ :: _, [], _ => .error "unexpected end"
  | .action _ .endBlock _ :: rest, .ifFrame p outer :: st, cur =>
    parseItems rest st (.ifNode p cur.reverse :: outer)
  | .action _ .endBlock _ :: rest, .rangeFrame vs p outer :: st, cur =>
    parseItems rest st (.rangeNode vs p cur.reverse :: outer)

/-- The call `template.New(...).Parse(text)`: trim, then build the tree. -/
def Parse (text : List Item) : Except String (List Node) :=
  parseItems (lexTrim false text) [] []

/-! ## Execution -/

/-- A value reached by reflection from the data passed to the template. -/
inductive Value where
  | string (s : String)
  | int (i : Int)
  | bool (b : Bool)
  | slice (elems : List Value)
  | struct (fields : List (String × Value))

/-- The exported fields of an `ExportPortPair`. -/
def ExportPortPair.toValue (p : ExportPortPair) : Value :=
  .struct [("HostPort", .int p.HostPort), ("ContainerPort", .int p.ContainerPort)]

/-- The exported fields of a `KindFileTemplate` (`kindFileTemplate` is unexported). -/
def KindFileTemplate.toValue (k : KindFileTemplate) : Value :=
  .struct [
    ("Name", .string k.Name),
    ("KubeAPIIP", .string k.KubeAPIIP),
    ("KubeAPIPort", .int k.KubeAPIPort),
    ("UseGPU", .bool k.UseGPU),
    ("ExportPorts", .slice (k.ExportPorts.map ExportPortPair.toValue)),
    ("AuditEnabled", .bool k.AuditEnabled),
    ("AuditFileAbsolutePath", .string k.AuditFileAbsolutePath),
    ("WorkerIDs", .slice (k.WorkerIDs.map Value.int))]

/-- The state of one execution: the dot and the variables in scope. -/
structure State where
  dot : Value
  vars : List (String × Value)

/-- Field selection on a value. -/
def evalField (v : Value) (name : String) : Except String Value :=
  match v with
  | .struct fields =>
    match fields.lookup name with
    | some x => .ok x
    | none => .error "can't evaluate field"
  | _ => .error "can't evaluate field"

/-- Evaluate a pipeline. -/
def evalPipe (s : State) : Pipe → Except String Value
  | .field name => evalField s.dot name
  | .varField var name =>
    match s.vars.lookup var with
    | some v => evalField v name
    | none => .error "undefined variable"

/-- Truth of a value in `if`: non-zero, non-empty. -/
def isTrue : Value → Bool
  | .string s => decide (s ≠ "")
  | .int i => decide (i ≠ 0)
  | .bool b => b
  | .slice elems => !elems.isEmpty
  | .struct _ => true

/-- Decimal rendering of a Go `int`. -/
def formatInt : Int → String
  | .ofNat m => Nat.repr m
  | .negSucc m => "-" ++ Nat.repr (m + 1)

/-- The text `fmt.Sprint` gives for the scalar kinds; the template prints nothing
else, and this model reports an error for a slice or struct operand. -/
def printValue : Value → Except String String
  | .string s => .ok s
  | .int i => .ok (formatInt i)
  | .bool b => .ok (if b then "true" else "false")
  | .slice _ => .error "printing a slice is outside this model"
  | .struct _ => .error "printing a struct is outside this model"

/-- The replacement table `htmlReplacementTable` of `html/template`. -/
def htmlReplacementTable (c : Char) : Option String :=
  if c = Char.ofNat 0 then some "�"
  else if c = Char.ofNat 34 then some "&#34;"
  else if c = '&' then some "&amp;"
  else if c = Char.ofNat 39 then some "&#39;"
  else if c = '+' then some "&#43;"
  else if c = '<' then some "&lt;"
  else if c = '>' then some "&gt;"
  else none

/-- One rune through the replacer. -/
def htmlReplaceChar (c : Char) : List Char :=
  match htmlReplacementTable c with
  | some r => r.data
  | none => [c]

/-- The escaper `htmlEscaper` that `html/template` appends to an action in text
context. -/
def htmlEscaper (s : String) : String :=
  String.mk (s.data.flatMap htmlReplaceChar)

/-- The writer after a step and the error, if any. -/
structure Result where
  out : String
  err : Option String
deriving DecidableEq, Repr

/-- The state inside a `range` body for element `elem` at index `i`. -/
def rangeState (s : State) (vars : List String) (i : Nat) (elem : Value) : State :=
  match vars with
  | [] => { dot := elem, vars := s.vars }
  | [x] => { dot := elem, vars := (x, elem) :: s.vars }
  | k :: x :: _ => { dot := elem, vars := (x, elem) :: (k, .int i) :: s.vars }

/-- Run `step` on every indexed element in order, stopping at the first error. -/
def forEach (step : Nat → Value → String → Result) : List (Nat × Value) → String → Result
  | [], w => ⟨w, none⟩
  | (i, elem) :: rest, w =>
    match step i elem w with
    | ⟨w1, none⟩ => forEach step rest w1
    | r => r

mutual
/-- Execute one node, appending to the writer `w`. -/
def walk : Node → State → String → Result
  | .text t, _, w => ⟨w ++ t, none⟩
  | .action p, s, w =>
    match evalPipe s p with
    | .error e => ⟨w, some e⟩
    | .ok v =>
      match printValue v with
      | .error e => ⟨w, some e⟩
      | .ok str => ⟨w ++ htmlEscaper str, none⟩
  | .ifNode p list, s, w =>
    match evalPipe s p with
    | .error e => ⟨w, some e⟩
    | .ok v => if isTrue v then walkList list s w else ⟨w, none⟩
  | .rangeNode vars p list, s, w =>
    match evalPipe s p with
    | .error e => ⟨w, some e⟩
    | .ok (.slice elems) =>
      forEach (fun i elem w1 => walkList list (rangeState s vars i elem) w1) elems.enum w
    | .ok _ => ⟨w, some "range can't iterate over value"⟩
/-- Execute a list of nodes in order, stopping at the first error. -/
def walkList : List Node → State → String → Result
  | [], _, w => ⟨w, none⟩
  | n :: rest, s, w =>
    match walk n s w with
    | ⟨w1, none⟩ => walkList rest s w1
    | r => r
end

/-- Method `Execute`: parse the template text, then execute it on the receiver, writing
to `w`. -/
def KindFileTemplate.Execute (k : KindFileTemplate) (w : String) : Result :=
  match Parse k.kindFileTemplate with
  | .error e => ⟨w, some e⟩
  | .ok tree => walkList tree { dot := k.toValue, vars := [] } w

/-- The document written by `Populate` followed by `Execute` on a fresh template
and an empty buffer. -/
def render (c : KindConfiger) : String :=
  ((NewKindTemplate.Populate (.implementsKindConfiger c)).1.Execute "").out

/-! ## The parsed template and the rendered document, section by section

The definitions from here to the theorems are not part of the program. They name the
tree that `Parse` yields and the pieces of text that `Execute` writes, so that the
theorems can state what `render` produces. -/

/-- The tree `Parse` builds from `kindDefaultFileTemplate` (see
`Parse_kindDefaultFileTemplate`). -/
def parsedTree : List Node := [
  .text "\nkind: Cluster\napiVersion: kind.x-k8s.io/v1alpha4\nname: ",
  .action (.field "Name"),
  .text "\nnodes:\n- role: control-plane\n  kubeadmConfigPatches:",
  .ifNode (.field "AuditEnabled") [.text "\n  - |\n    kind: ClusterConfiguration\n    apiServer:\n      # enable auditing flags on the API server\n      extraArgs:\n        audit-log-path: /var/log/kubernetes/kube-apiserver-audit.log\n        audit-policy-file: /etc/kubernetes/policies/audit-policy.yaml\n        audit-log-maxage: \"30\"\n        audit-log-maxbackup: \"10\"\n        audit-log-maxsize: \"100\"\n      # mount new files / directories on the control plane\n      extraVolumes:\n        - name: audit-policies\n          hostPath: /etc/kubernetes/policies\n          mountPath: /etc/kubernetes/policies\n          readOnly: true\n          pathType: \"DirectoryOrCreate\"\n        - name: \"audit-logs\"\n          hostPath: \"/var/log/kubernetes\"\n          mountPath: \"/var/log/kubernetes\"\n          readOnly: false\n          pathType: DirectoryOrCreate"],
  .text "\n  - |\n    kind: InitConfiguration\n    nodeRegistration:\n      kubeletExtraArgs:\n        node-labels: \"ingress-ready=true\"\n  image: kindest/node:v1.23.12@sha256:9402cf1330bbd3a0d097d2033fa489b2abe40d479cc5ef47d0b6a6960613148a\n  gpus: ",
  .action (.field "UseGPU"),
  .text "\n  ",
  .ifNode (.field "ExportPorts") [.text "extraPortMappings:"],
  .rangeNode ["i", "p"] (.field "ExportPorts") [
    .text "\n  - containerPort: ",
    .action (.varField "p" "ContainerPort"),
    .text "\n    hostPort: ",
    .action (.varField "p" "HostPort"),
    .text "\n    protocol: TCP"],
  .ifNode (.field "AuditEnabled") [
    .text "\n  # mount the local file on the control plane\n  extraMounts:\n  - hostPath: ",
    .action (.field "AuditFileAbsolutePath"),
    .text "\n    containerPath: /etc/kubernetes/policies/audit-policy.yaml\n    readOnly: true"],
  .rangeNode [] (.field "WorkerIDs") [
    .text "\n- role: worker\n  image: kindest/node:v1.23.12@sha256:9402cf1330bbd3a0d097d2033fa489b2abe40d479cc5ef47d0b6a6960613148a"],
  .text "\nnetworking:\n  apiServerAddress: ",
  .action (.field "KubeAPIIP"),
  .text "\n  apiServerPort: ",
  .action (.field "KubeAPIPort"),
  .text "\n"]

/-- The literal text of an item (empty for an action). -/
def itemText : Item → String
  | .text s => s
  | .action _ _ _ => ""

/-- Concatenation of the renderings of the elements of a list, in order. -/
def concatMap {α : Type} (f : α → String) : List α → String
  | [] => ""
  | x :: xs => f x ++ concatMap f xs


/-- A decimal digit character. -/
def isDecimal (c : Char) : Prop := c ∈ ['0', '1', '2', '3', '4', '5', '6', '7', '8', '9']

instance (c : Char) : Decidable (isDecimal c) := by unfold isDecimal; infer_instance


/-- The value of a list of digit characters, most significant first. -/
def digitsValue (ds : List Char) : Nat :=
  ds.foldl (fun a c => 10 * a + (c.toNat - 48)) 0


/-- A character the replacement table leaves alone. -/
def isPlain (c : Char) : Prop := htmlReplacementTable c = none

instance (c : Char) : Decidable (isPlain c) := by unfold isPlain; infer_instance


/-- The audit patch block of `kubeadmConfigPatches`. -/
def auditPatchBlock : String :=
  "\n  - |\n    kind: ClusterConfiguration\n    apiServer:\n      # enable auditing flags on the API server\n      extraArgs:\n        audit-log-path: /var/log/kubernetes/kube-apiserver-audit.log\n        audit-policy-file: /etc/kubernetes/policies/audit-policy.yaml\n        audit-log-maxage: \"30\"\n        audit-log-maxbackup: \"10\"\n        audit-log-maxsize: \"100\"\n      # mount new files / directories on the control plane\n      extraVolumes:\n        - name: audit-policies\n          hostPath: /etc/kubernetes/policies\n          mountPath: /etc/kubernetes/policies\n          readOnly: true\n          pathType: \"DirectoryOrCreate\"\n        - name: \"audit-logs\"\n          hostPath: \"/var/log/kubernetes\"\n          mountPath: \"/var/log/kubernetes\"\n          readOnly: false\n          pathType: DirectoryOrCreate"

/-- The node-label patch block. -/
def nodeLabelPatchBlock : String :=
  "\n  - |\n    kind: InitConfiguration\n    nodeRegistration:\n      kubeletExtraArgs:\n        node-labels: \"ingress-ready=true\""

/-- One entry of the port-mapping block. -/
def portMappingEntry (p : ExportPortPair) : String :=
  "\n  - containerPort: " ++ formatInt p.ContainerPort ++ "\n    hostPort: " ++
    formatInt p.HostPort ++ "\n    protocol: TCP"

/-- One worker node block. -/
def workerBlock : String :=
  "\n- role: worker\n  image: kindest/node:v1.23.12@sha256:9402cf1330bbd3a0d097d2033fa489b2abe40d479cc5ef47d0b6a6960613148a"

/-- The audit-policy mount of the control-plane node, for the host path as written. -/
def auditMountBlock (writtenPath : String) : String :=
  "\n  # mount the local file on the control plane\n  extraMounts:\n  - hostPath: " ++
    writtenPath ++
    "\n    containerPath: /etc/kubernetes/policies/audit-policy.yaml\n    readOnly: true"

/-- The image line of the control-plane node. -/
def imageLine : String :=
  "\n  image: kindest/node:v1.23.12@sha256:9402cf1330bbd3a0d097d2033fa489b2abe40d479cc5ef47d0b6a6960613148a"

/-- The head of the document, up to the opening of `kubeadmConfigPatches` in the
control-plane node, for the name as written. -/
def headerSection (writtenName : String) : String :=
  "\nkind: Cluster\napiVersion: kind.x-k8s.io/v1alpha4\nname: " ++ writtenName ++
    "\nnodes:\n- role: control-plane\n  kubeadmConfigPatches:"

/-- The port-mapping block: the header when there is a pair, then the entries. -/
def portMappings (ports : List ExportPortPair) : String :=
  (if ports.isEmpty then "" else "extraPortMappings:") ++ concatMap portMappingEntry ports

/-- The networking block that closes the document, for the address as written. -/
def networkingBlock (writtenAddress : String) (port : Int) : String :=
  "\nnetworking:\n  apiServerAddress: " ++ writtenAddress ++
    "\n  apiServerPort: " ++ formatInt port ++ "\n"

/-- The document a populated template writes: the text of the template in order,
with each action replaced by what it prints. -/
def document (k : KindFileTemplate) : String :=
  headerSection (htmlEscaper k.Name) ++
  (if k.AuditEnabled then auditPatchBlock else "") ++
  nodeLabelPatchBlock ++ imageLine ++
  "\n  gpus: " ++ (if k.UseGPU then "true" else "false") ++
  "\n  " ++ portMappings k.ExportPorts ++
  (if k.AuditEnabled then auditMountBlock (htmlEscaper k.AuditFileAbsolutePath) else "") ++
  concatMap (fun _ => workerBlock) k.WorkerIDs ++
  networkingBlock (htmlEscaper k.KubeAPIIP) k.KubeAPIPort

/-- The control-plane node from the head of the document to the end of its
`gpus:` line. It does not read the exported ports or the worker list. -/
def controlPlaneHead (c : KindConfiger) : String :=
  headerSection (htmlEscaper c.GetName) ++
  (if c.AuditEnabled then auditPatchBlock else "") ++
  nodeLabelPatchBlock ++ imageLine ++
  "\n  gpus: " ++ (if c.GetGPUs > 0 then "true" else "false")

/-- The audit-policy mount of the control-plane node, present when auditing is on. -/
def auditMountSection (c : KindConfiger) : String :=
  if c.AuditEnabled then auditMountBlock (htmlEscaper c.AuditFileAbsolutePath) else ""

/-- What follows the port-mapping block: the audit mount, the worker blocks and the
networking block. It does not read the exported ports. -/
def documentTail (c : KindConfiger) : String :=
  auditMountSection c ++ concatMap (fun _ => workerBlock) c.GetWorkerIDs ++
  networkingBlock (htmlEscaper c.GetKubeAPIIP) c.GetKubeAPIPort

/-- The document up to the end of the control-plane node block. It does not read
the worker list. -/
def controlPlaneNode (c : KindConfiger) : String :=
  controlPlaneHead c ++ "\n  " ++ portMappings c.GetExportPorts ++ auditMountSection c

/-! ## The configurations of the tests -/

/-- The tests' `staticConfig`, with the worker ids 1, 2, 3 for its three workers. -/
def staticConfig : LabelledConfig where
  GetName := "staticconfig"
  GetKubeAPIPort := 8443
  GetKubeAPIIP := "1.2.3.4"
  GetGPUs := 1
  GetExportPorts := [{ HostPort := 80, ContainerPort := 8081 },
    { HostPort := 443, ContainerPort := 8083 }]
  AuditEnabled := false
  AuditFileAbsolutePath := ""
  GetWorkerIDs := [1, 2, 3]
  GetNodeLabels := [{ Key := "a", Value := "b" }, { Key := "c", Value := "d" }]
  LocalPath := "/mnt/test"

/-- The tests' `auditConfig`. -/
def auditConfig : LabelledConfig where
  GetName := "auditConfig"
  GetKubeAPIPort := 8443
  GetKubeAPIIP := "1.2.3.4"
  GetGPUs := 0
  GetExportPorts := [{ HostPort := 80, ContainerPort := 8081 }]
  AuditEnabled := true
  AuditFileAbsolutePath := "foo.bar.yaml"
  GetWorkerIDs := []
  GetNodeLabels := []
  LocalPath := ""

/-- A configuration with no optional feature: no GPU, no exported port, no worker,
no auditing, no node label, no local path. -/
def minimalConfig : LabelledConfig where
  GetName := "minimal"
  GetKubeAPIPort := 8443
  GetKubeAPIIP := "0.0.0.0"
  GetGPUs := 0
  GetExportPorts := []
  AuditEnabled := false
  AuditFileAbsolutePath := ""
  GetWorkerIDs := []
  GetNodeLabels := []
  LocalPath := ""

/-- The tests' `auditConfig` with an audit policy file whose path has a `+`, and no
exported port. -/
def plusPathConfig : LabelledConfig where
  GetName := "auditConfig"
  GetKubeAPIPort := 8443
  GetKubeAPIIP := "1.2.3.4"
  GetGPUs := 0
  GetExportPorts := []
  AuditEnabled := true
  AuditFileAbsolutePath := "/tmp/a+b.yaml"
  GetWorkerIDs := []
  GetNodeLabels := []
  LocalPath := ""

/-- A configuration with the tests' two node labels and nothing else optional. -/
def labelsConfig : LabelledConfig where
  GetName := "staticconfig"
  GetKubeAPIPort := 8443
  GetKubeAPIIP := "1.2.3.4"
  GetGPUs := 0
  GetExportPorts := []
  AuditEnabled := false
  AuditFileAbsolutePath := ""
  GetWorkerIDs := []
  GetNodeLabels := [{ Key := "a", Value := "b" }, { Key := "c", Value := "d" }]
  LocalPath := ""

/-- A configuration with one GPU, the local path of the tests and one worker. -/
def oneWorkerConfig : LabelledConfig where
  GetName := "staticconfig"
  GetKubeAPIPort := 8443
  GetKubeAPIIP := "1.2.3.4"
  GetGPUs := 1
  GetExportPorts := []
  AuditEnabled := false
  AuditFileAbsolutePath := ""
  GetWorkerIDs := [1]
  GetNodeLabels := []
  LocalPath := "/mnt/test"

/-- A configuration whose name has a `+`. -/
def plusNameConfig : LabelledConfig where
  GetName := "a+b"
  GetKubeAPIPort := 8443
  GetKubeAPIIP := "1.2.3.4"
  GetGPUs := 0
  GetExportPorts := []
  AuditEnabled := false
  AuditFileAbsolutePath := ""
  GetWorkerIDs := []
  GetNodeLabels := []
  LocalPath := ""

/-- The template as `Populate` leaves it for the configuration `c`. -/
def populated (c : KindConfiger) : KindFileTemplate :=
  (NewKindTemplate.Populate (.implementsKindConfiger c)).1

/-! ## Histories of a template, and specifications with a Kubernetes version -/

/-- The template after the `Populate` calls of `history`, made in order on `k`,
whatever each of them returned. -/
def populateAll (k : KindFileTemplate) (history : List Dynamic) : KindFileTemplate :=
  history.foldl (fun t v => (t.Populate v).1) k

/-- The value `k8s.NewKindK8sVersion(version, sha256)` that the add command passes as
`NodeVersion`: the requested Kubernetes version and the digest of its node image. -/
structure KindK8sVersion where
  Version : String
  Sha256 : String
deriving DecidableEq, Repr

/-- A specification that, besides the `KindConfiger` methods, carries the requested
`NodeVersion`. It is not part of the interface. -/
structure VersionedConfig extends KindConfiger where
  NodeVersion : KindK8sVersion
deriving DecidableEq, Repr

/-- The tests' `auditConfig` with an empty audit policy path and no exported port. -/
def emptyAuditPathConfig : KindConfiger where
  GetName := "auditConfig"
  GetKubeAPIPort := 8443
  GetKubeAPIIP := "1.2.3.4"
  GetGPUs := 0
  GetExportPorts := []
  AuditEnabled := true
  AuditFileAbsolutePath := ""
  GetWorkerIDs := []

/-- A specification asking for Kubernetes v1.25.11 (the pair of the tests' `gold`). -/
def versionConfigA : VersionedConfig where
  GetName := "staticconfig"
  GetKubeAPIPort := 8443
  GetKubeAPIIP := "1.2.3.4"
  GetGPUs := 0
  GetExportPorts := []
  AuditEnabled := false
  AuditFileAbsolutePath := ""
  GetWorkerIDs := [1]
  NodeVersion :=
    { Version := "v1.25.11"
      Sha256 := "227fa11ce74ea76a0474eeefb84cb75d8dad1b08638371ecf0e86259b35be0c8" }

/-- The same specification asking for Kubernetes v1.23.17 (the pair of the tests'
`goldWithAudit`). -/
def versionConfigB : VersionedConfig where
  GetName := "staticconfig"
  GetKubeAPIPort := 8443
  GetKubeAPIIP := "1.2.3.4"
  GetGPUs := 0
  GetExportPorts := []
  AuditEnabled := false
  AuditFileAbsolutePath := ""
  GetWorkerIDs := [1]
  NodeVersion :=
    { Version := "v1.23.17"
      Sha256 := "e5fd1d9cd7a9a50939f9c005684df5a6d145e8d695e78463637b79464292e66c" }

/-! ## The command layer: `cmd/multikf/cmd.go`

The methods of `runCmd` drive collaborators whose code is outside the command layer
(package `machine`, the logger, `filepath`). Each collaborator is a parameter: it
takes the world and returns its result and the new world. Every function of the
command layer returns, besides its Go result, the list of the calls it made, each
with what it returned, in the order made. -/

/-- A Go `error` value. -/
structure GoError where
  msg : String
deriving DecidableEq, Repr

/-- The struct `machineConfig` of `cmd.go`. -/
structure machineConfig where
  cpus : Int
  memoryInG : Int
deriving DecidableEq, Repr

/-- The package-level flag variables of `cmd.go` read by `newRunCmd` and `Export`. -/
structure Flags where
  provisionerStr : String
  guestRootDir : String
  forceOverwrite : Bool
  verbose : Bool
deriving DecidableEq, Repr

/-- The collaborators of `cmd/multikf/cmd.go`: `P` is a provisioner, `L` a logger,
`F` a machine factory (`machine.MachinesCURD`), `M` a machine and `W` the world. -/
structure Collaborators (W P L F M : Type) where
  ParseProvisioner : String → Except GoError P
  NewLogger : L
  NewMachineFactory : P → L → String → Bool → W → Except GoError F × W
  NewMachine : F → String → Option machineConfig → W → Except GoError M × W
  ExportKubeConfig : M → String → Bool → W → Option GoError × W
  Errorf : L → String → List String → W → W
  filepathJoin : List String → String

/-- One call to a collaborator, with its arguments and what it returned. -/
inductive Event (P L F M : Type) where
  | ParseProvisioner (token : String) (ret : Except GoError P)
  | NewLogger (ret : L)
  | NewMachineFactory (p : P) (logger : L) (rootDir : String) (verbose : Bool)
      (ret : Except GoError F)
  | NewMachine (vag : F) (name : String) (config : Option machineConfig)
      (ret : Except GoError M)
  | ExportKubeConfig (m : M) (path : String) (overwrite : Bool) (ret : Option GoError)
  | Errorf (logger : L) (format : String) (args : List String)

/-- The struct `runCmd`. -/
structure runCmd (L F : Type) where
  vag : F
  logger : L

/-- What a function of the command layer leaves behind: its Go result, the calls it
made and the world after it. -/
structure Run (R E W : Type) where
  result : R
  calls : List E
  world : W

/-- Function `newRunCmd` of `cmd/multikf/cmd.go`: the pair `(*runCmd, error)`. -/
def newRunCmd {W P L F M : Type} (col : Collaborators W P L F M) (flags : Flags) (w : W) :
    Run (Option (runCmd L F) × Option GoError) (Event P L F M) W :=
  match col.ParseProvisioner flags.provisionerStr with
  | .error err =>
    ⟨(none, some err), [.ParseProvisioner flags.provisionerStr (.error err)], w⟩
  | .ok p =>
    let logger := col.NewLogger
    match col.NewMachineFactory p logger flags.guestRootDir flags.verbose w with
    | (.error err, w1) =>
      ⟨(none, some err),
        [.ParseProvisioner flags.provisionerStr (.ok p), .NewLogger logger,
          .NewMachineFactory p logger flags.guestRootDir flags.verbose (.error err)], w1⟩
    | (.ok vag, w1) =>
      ⟨(some { vag := vag, logger := logger }, none),
        [.ParseProvisioner flags.provisionerStr (.ok p), .NewLogger logger,
          .NewMachineFactory p logger flags.guestRootDir flags.verbose (.ok vag)], w1⟩

/-- Method `runCmd.Export` of `cmd/multikf/cmd.go`: the returned `error`. -/
def runCmd.Export {W P L F M : Type} (r : runCmd L F) (col : Collaborators W P L F M)
    (flags : Flags) (name : String) (path : String) (w : W) :
    Run (Option GoError) (Event P L F M) W :=
  let path := if path = "" then col.filepathJoin [flags.guestRootDir, name, "kubeconfig"] else path
  match col.NewMachine r.vag name none w with
  | (.error err, w1) => ⟨some err, [.NewMachine r.vag name none (.error err)], w1⟩
  | (.ok m, w1) =>
    match col.ExportKubeConfig m path flags.forceOverwrite w1 with
    | (some err, w2) =>
      ⟨some err,
        [.NewMachine r.vag name none (.ok m),
          .ExportKubeConfig m path flags.forceOverwrite (some err),
          .Errorf r.logger "runcmd: export node (%s) failed, err:%+v\n" [name, err.msg]],
        col.Errorf r.logger "runcmd: export node (%s) failed, err:%+v\n" [name, err.msg] w2⟩
    | (none, w2) =>
      ⟨none,
        [.NewMachine r.vag name none (.ok m),
          .ExportKubeConfig m path flags.forceOverwrite none], w2⟩

/-! ## The command layer: `cmd/multikind/cmd.go` -/

/-- The struct `vagrantmachine.VagrantMachineConfig` as `Add` fills it. -/
structure VagrantMachineConfig where
  CPUs : Int
  Memory : Int
deriving DecidableEq, Repr

/-- The package-level flag variables of `cmd/multikind/cmd.go` read by `Export`. -/
structure VagrantFlags where
  vagrantRootDir : String
  forceOverwrite : Bool
deriving DecidableEq, Repr

/-- The collaborators of `cmd/multikind/cmd.go`: here `NewMachine` returns no error,
and the logger is the package `glog`. -/
structure VagrantCollaborators (W F M : Type) where
  NewMachine : F → String → Option VagrantMachineConfig → W → M × W
  ExportKubeConfig : M → String → Bool → W → Option GoError × W
  Errorf : String → List String → W → W
  filepathJoin : List String → String

/-- One call to a collaborator of `cmd/multikind/cmd.go`. -/
inductive VagrantEvent (F M : Type) where
  | NewMachine (vag : F) (name : String) (config : Option VagrantMachineConfig) (ret : M)
  | ExportKubeConfig (m : M) (path : String) (overwrite : Bool) (ret : Option GoError)
  | Errorf (format : String) (args : List String)

/-- The struct `runCmd` of `cmd/multikind/cmd.go`. -/
structure vagrantRunCmd (F : Type) where
  vag : F

/-- Method `runCmd.Export` of `cmd/multikind/cmd.go`. -/
def vagrantRunCmd.Export {W F M : Type} (r : vagrantRunCmd F) (col : VagrantCollaborators W F M)
    (flags : VagrantFlags) (name : String) (path : String) (w : W) :
    Run (Option GoError) (VagrantEvent F M) W :=
  let path :=
    if path = "" then col.filepathJoin [flags.vagrantRootDir, name, "kubeconfig"] else path
  match col.NewMachine r.vag name none w with
  | (m, w1) =>
    match col.ExportKubeConfig m path flags.forceOverwrite w1 with
    | (some err, w2) =>
      ⟨some err,
        [.NewMachine r.vag name none m,
          .ExportKubeConfig m path flags.forceOverwrite (some err),
          .Errorf "runcmd: export vagrant node (%s) failed, err:%+v\n" [name, err.msg]],
        col.Errorf "runcmd: export vagrant node (%s) failed, err:%+v\n" [name, err.msg] w2⟩
    | (none, w2) =>
      ⟨none,
        [.NewMachine r.vag name none m,
          .ExportKubeConfig m path flags.forceOverwrite none], w2⟩

/-! ## The command layer: the handler of `NewAddCommand` in `cmd/multikf/cmd_add.go` -/

/-- The flag variables that the handler closes over. -/
structure AddFlags where
  provisionerStr : String
  cpus : Int
  memoryInG : Int
  useGPUs : Int
  withKubeflow : Bool
  withKubeflowVersion : String
  withKubeflowDefaultPassword : String
  withIP : String
  withAudit : Bool
  withWorkers : Int
  withLabels : String
  exportPorts : String
  forceOverwrite : Bool
  useLocalPath : String
  withK8sVersion : String
  withK8sSHA256 : String
deriving DecidableEq, Repr

/-- The struct literal `machineConfig` that the handler passes to `NewMachine`; `V`
is the type of `k8s.NewKindK8sVersion(...)`. -/
structure addMachineConfig (L V : Type) where
  logger : L
  Cpus : Int
  MemoryInG : Int
  UseGPUs : Int
  KubeAPIIP : String
  ExportPorts : String
  ForceOverwrite : Bool
  IsAuditEnabled : Bool
  Workers : Int
  NodeLabels : String
  LocalPath : String
  NodeVersion : V

/-- The struct `kubeflowPlugin`; `T` is the type of `plugins.NewTypePluginVersion(...)`. -/
structure kubeflowPlugin (T : Type) where
  withKubeflowDefaultPassword : String
  kubeflowVersion : T

/-- The collaborators of the handler. `MustParseProvisioner` returns `none` when it
panics; `isVagrantMachines` is the type assertion `vag.(*vagrant.VagrantMachines)`. -/
structure AddCollaborators (W P L F M V T : Type) where
  MustParseProvisioner : String → Option P
  newMachineFactoryWithProvisioner : P → L → W → Except GoError F × W
  isVagrantMachines : F → Bool
  NewKindK8sVersion : String → String → V
  NewTypePluginVersion : String → T
  NewMachine : F → String → addMachineConfig L V → W → Except GoError M × W
  Up : M → W → Option GoError × W
  Errorf : L → String → List String → W → W
  AddPlugins : M → List (kubeflowPlugin T) → W → Option GoError × W

/-- One call made by the handler, with its arguments and what it returned. -/
inductive AddEvent (P L F M V T : Type) where
  | MustParseProvisioner (token : String) (ret : Option P)
  | newMachineFactoryWithProvisioner (p : P) (logger : L) (ret : Except GoError F)
  | NewMachine (vag : F) (name : String) (config : addMachineConfig L V)
      (ret : Except GoError M)
  | Up (m : M) (ret : Option GoError)
  | Errorf (logger : L) (format : String) (args : List String)
  | AddPlugins (m : M) (installedPlugins : List (kubeflowPlugin T)) (ret : Option GoError)

/-- Is the event a call of `plugins.AddPlugins`? -/
def AddEvent.isAddPlugins {P L F M V T : Type} : AddEvent P L F M V T → Bool
  | .AddPlugins _ _ _ => true
  | _ => false

/-- How the handler ends: it returns its `error`, or it panics. -/
inductive Completion where
  | returned (err : Option GoError)
  | panicked
deriving DecidableEq, Repr

/-- The closure `ensureNoGPUForVagrant`. -/
def ensureNoGPUForVagrant {W P L F M V T : Type} (col : AddCollaborators W P L F M V T)
    (vag : F) (useGPUs : Int) : Option GoError :=
  if col.isVagrantMachines vag && decide (useGPUs > 0) then
    some { msg := "vagrant machine haven't support gpu passthrough yet" }
  else none

/-- The `machineConfig` literal built by the handler from the flags. -/
def addConfigOf {W P L F M V T : Type} (col : AddCollaborators W P L F M V T)
    (flags : AddFlags) (logger : L) : addMachineConfig L V :=
  { logger := logger
    Cpus := flags.cpus
    MemoryInG := flags.memoryInG
    UseGPUs := flags.useGPUs
    KubeAPIIP := flags.withIP
    ExportPorts := flags.exportPorts
    ForceOverwrite := flags.forceOverwrite
    IsAuditEnabled := flags.withAudit
    Workers := flags.withWorkers
    NodeLabels := flags.withLabels
    LocalPath := flags.useLocalPath
    NodeVersion := col.NewKindK8sVersion flags.withK8sVersion flags.withK8sSHA256 }

/-- The list `installedPlugins` built by the handler after `Up`. -/
def installedPluginsOf {W P L F M V T : Type} (col : AddCollaborators W P L F M V T)
    (flags : AddFlags) : List (kubeflowPlugin T) :=
  if flags.withKubeflow then
    [{ withKubeflowDefaultPassword := flags.withKubeflowDefaultPassword
       kubeflowVersion := col.NewTypePluginVersion flags.withKubeflowVersion }]
  else []

/-- The closure `handle` of `NewAddCommand`. -/
def handle {W P L F M V T : Type} (col : AddCollaborators W P L F M V T) (flags : AddFlags)
    (logger : L) (machineName : String) (w : W) :
    Run Completion (AddEvent P L F M V T) W :=
  match col.MustParseProvisioner flags.provisionerStr with
  | none => ⟨.panicked, [.MustParseProvisioner flags.provisionerStr none], w⟩
  | some p =>
    match col.newMachineFactoryWithProvisioner p logger w with
    | (.error err, w1) =>
      ⟨.returned (some err),
        [.MustParseProvisioner flags.provisionerStr (some p),
          .newMachineFactoryWithProvisioner p logger (.error err)], w1⟩
    | (.ok vag, w1) =>
      match ensureNoGPUForVagrant col vag flags.useGPUs with
      | some err =>
        ⟨.returned (some err),
          [.MustParseProvisioner flags.provisionerStr (some p),
            .newMachineFactoryWithProvisioner p logger (.ok vag)], w1⟩
      | none =>
        match col.NewMachine vag machineName (addConfigOf col flags logger) w1 with
        | (.error err, w2) =>
          ⟨.returned (some err),
            [.MustParseProvisioner flags.provisionerStr (some p),
              .newMachineFactoryWithProvisioner p logger (.ok vag),
              .NewMachine vag machineName (addConfigOf col flags logger) (.error err)], w2⟩
        | (.ok m, w2) =>
          match col.Up m w2 with
          | (some err, w3) =>
            ⟨.returned (some err),
              [.MustParseProvisioner flags.provisionerStr (some p),
                .newMachineFactoryWithProvisioner p logger (.ok vag),
                .NewMachine vag machineName (addConfigOf col flags logger) (.ok m),
                .Up m (some err),
                .Errorf logger "cmdadd: add node (%s) failed, err:%+v\n" [machineName, err.msg]],
              col.Errorf logger "cmdadd: add node (%s) failed, err:%+v\n"
                [machineName, err.msg] w3⟩
          | (none, w3) =>
            match col.AddPlugins m (installedPluginsOf col flags) w3 with
            | (ret, w4) =>
              ⟨.returned ret,
                [.MustParseProvisioner flags.provisionerStr (some p),
                  .newMachineFactoryWithProvisioner p logger (.ok vag),
                  .NewMachine vag machineName (addConfigOf col flags logger) (.ok m),
                  .Up m none,
                  .AddPlugins m (installedPluginsOf col flags) ret], w4⟩

/-! ## Stand-ins for the collaborators

They are not part of the program; they give the theorems a concrete input. The
world is the list of lines logged. -/

/-- A stand-in for the collaborators of `cmd.go`: two provisioner tokens are
accepted, the factory refuses an empty root directory, a machine is its name, and
exporting fails on an existing file (here the path `taken`) unless overwriting. -/
def sampleCollaborators : Collaborators (List String) String Unit String String where
  ParseProvisioner := fun token =>
    if token = "docker" ∨ token = "vagrant" then .ok token
    else .error { msg := "unknown provisioner" }
  NewLogger := ()
  NewMachineFactory := fun p _ rootDir _ w =>
    if rootDir = "" then (.error { msg := "no root dir" }, w) else (.ok p, w)
  NewMachine := fun _ name _ w =>
    if name = "" then (.error { msg := "no name" }, w) else (.ok name, w)
  ExportKubeConfig := fun _ path overwrite w =>
    if path = "taken" ∧ overwrite = false then (some { msg := "file exists" }, w) else (none, w)
  Errorf := fun _ format args w => (format :: args).foldr (fun a b => a ++ " " ++ b) "" :: w
  filepathJoin := fun parts =>
    match parts with
    | [] => ""
    | first :: rest => rest.foldl (fun joined part => joined ++ "/" ++ part) first

/-- Flags for the stand-in: an unknown provisioner token. -/
def unknownProvisionerFlags : Flags where
  provisionerStr := "qemu"
  guestRootDir := ".multikfdir"
  forceOverwrite := false
  verbose := true

/-- Flags for the stand-in: a known provisioner and an empty root directory. -/
def emptyRootFlags : Flags where
  provisionerStr := "docker"
  guestRootDir := ""
  forceOverwrite := false
  verbose := true

/-- A stand-in for the collaborators of the add handler: `Up` fails for the machine
named `down`, and applying plugins fails for the machine named `noplugins`. -/
def sampleAddCollaborators :
    AddCollaborators (List String) String Unit String String (String × String) String where
  MustParseProvisioner := fun token =>
    if token = "docker" ∨ token = "vagrant" then some token else none
  newMachineFactoryWithProvisioner := fun p _ w => (.ok p, w)
  isVagrantMachines := fun vag => vag = "vagrant"
  NewKindK8sVersion := fun version sha256 => (version, sha256)
  NewTypePluginVersion := fun version => version
  NewMachine := fun _ name _ w =>
    if name = "" then (.error { msg := "no name" }, w) else (.ok name, w)
  Up := fun m w => if m = "down" then (some { msg := "up failed" }, w) else (none, w)
  Errorf := fun _ format args w => (format :: args).foldr (fun a b => a ++ " " ++ b) "" :: w
  AddPlugins := fun m _ w =>
    if m = "noplugins" then (some { msg := "plugin failed" }, w) else (none, w)

/-- Flags of the add command for the stand-in: the defaults, with kubeflow. -/
def defaultAddFlags : AddFlags where
  provisionerStr := "docker"
  cpus := 1
  memoryInG := 1
  useGPUs := 0
  withKubeflow := true
  withKubeflowVersion := "v1.6.1"
  withKubeflowDefaultPassword := "12341234"
  withIP := "0.0.0.0"
  withAudit := true
  withWorkers := 0
  withLabels := ""
  exportPorts := ""
  forceOverwrite := false
  useLocalPath := ""
  withK8sVersion := "v1.23.12"
  withK8sSHA256 := "9402cf1330bbd3a0d097d2033fa489b2abe40d479cc5ef47d0b6a6960613148a"

/-! ## Theorems -/

/-! ### Parsing and execution -/

set_option maxRecDepth 1000000 in
theorem Parse_kindDefaultFileTemplate : Parse kindDefaultFileTemplate = .ok parsedTree := by
  rfl



set_option maxRecDepth 100000 in
theorem kindDefaultFileTemplate_text_context :
    ∀ item ∈ kindDefaultFileTemplate, '<' ∉ (itemText item).data := by
  decide

theorem walk_text (t : String) (s : State) (w : String) :
    walk (.text t) s w = ⟨w ++ t, none⟩ := by
  simp [walk]

theorem forEach_ok (step : Nat → Value → String → Result) {α : Type}
    (g : α → Value) (f : α → String)
    (h : ∀ x i w, step i (g x) w = ⟨w ++ f x, none⟩)
    (xs : List α) (n : Nat) (w : String) :
    forEach step (List.enumFrom n (xs.map g)) w = ⟨w ++ concatMap f xs, none⟩ := by
  induction xs generalizing n w with
  | nil => simp [concatMap, forEach]
  | cons x xs ih =>
    simp only [List.map_cons, List.enumFrom_cons, forEach, h]
    rw [ih]
    simp [concatMap, String.append_assoc]

theorem walk_range_ok (body : List Node) (s : State) (vars : List String) (p : Pipe)
    {α : Type} (g : α → Value) (f : α → String) (xs : List α)
    (hp : evalPipe s p = .ok (.slice (xs.map g)))
    (h : ∀ x i w, walkList body (rangeState s vars i (g x)) w = ⟨w ++ f x, none⟩)
    (w : String) :
    walk (.rangeNode vars p body) s w = ⟨w ++ concatMap f xs, none⟩ := by
  simp only [walk, hp, List.enum]
  exact forEach_ok _ g f h xs 0 w

/-! ### Decimal digits -/

theorem isDecimal_digitChar (d : Nat) (h : d < 10) : isDecimal (Nat.digitChar d) := by
  interval_cases d <;> decide

theorem toDigitsCore_decimal (fuel n : Nat) (ds : List Char) (h : ∀ c ∈ ds, isDecimal c) :
    ∀ c ∈ Nat.toDigitsCore 10 fuel n ds, isDecimal c := by
  induction fuel generalizing n ds with
  | zero => simpa [Nat.toDigitsCore] using h
  | succ fuel ih =>
    have hd : isDecimal (Nat.digitChar (n % 10)) := isDecimal_digitChar _ (Nat.mod_lt _ (by decide))
    have h1 : ∀ c ∈ Nat.digitChar (n % 10) :: ds, isDecimal c := by
      intro c hc
      rcases List.mem_cons.1 hc with rfl | hc
      · exact hd
      · exact h c hc
    simp only [Nat.toDigitsCore]
    split
    · exact h1
    · exact ih _ _ h1

theorem repr_decimal (n : Nat) : ∀ c ∈ (Nat.repr n).data, isDecimal c := by
  simp only [Nat.repr, Nat.toDigits, List.asString]
  exact toDigitsCore_decimal _ _ _ (by simp)

theorem digitChar_toNat (d : Nat) (h : d < 10) : (Nat.digitChar d).toNat - 48 = d := by
  interval_cases d <;> decide

theorem toDigitsCore_append (fuel n : Nat) (ds : List Char) :
    Nat.toDigitsCore 10 fuel n ds = Nat.toDigitsCore 10 fuel n [] ++ ds := by
  induction fuel generalizing n ds with
  | zero => simp [Nat.toDigitsCore]
  | succ fuel ih =>
    simp only [Nat.toDigitsCore]
    split
    · simp
    · rw [ih (n / 10) (Nat.digitChar (n % 10) :: ds), ih (n / 10) [Nat.digitChar (n % 10)]]
      simp

theorem digitsValue_toDigitsCore (fuel n : Nat) (h : n < fuel) :
    digitsValue (Nat.toDigitsCore 10 fuel n []) = n := by
  induction fuel generalizing n with
  | zero => omega
  | succ fuel ih =>
    simp only [Nat.toDigitsCore]
    split
    · rename_i h0
      simp only [digitsValue, List.foldl_cons, List.foldl_nil]
      rw [digitChar_toNat _ (Nat.mod_lt _ (by decide))]
      omega
    · rename_i h0
      rw [toDigitsCore_append]
      have hlt : n / 10 < fuel := by omega
      have := ih (n / 10) hlt
      simp only [digitsValue, List.foldl_append, List.foldl_cons, List.foldl_nil] at this ⊢
      rw [this, digitChar_toNat _ (Nat.mod_lt _ (by decide))]
      omega

theorem repr_injective (m n : Nat) (h : Nat.repr m = Nat.repr n) : m = n := by
  have h1 : Nat.toDigits 10 m = Nat.toDigits 10 n := by
    have h2 := congrArg String.data h
    simpa [Nat.repr, List.asString] using h2
  have hm := digitsValue_toDigitsCore (m + 1) m (by omega)
  have hn := digitsValue_toDigitsCore (n + 1) n (by omega)
  simp only [Nat.toDigits] at h1
  rw [← hm, ← hn, h1]

/-! ### The escaper on text without special characters -/

theorem htmlEscaper_plain (s : String) (h : ∀ c ∈ s.data, isPlain c) : htmlEscaper s = s := by
  have key : ∀ l : List Char, (∀ c ∈ l, isPlain c) → l.flatMap htmlReplaceChar = l := by
    intro l
    induction l with
    | nil => intro _; rfl
    | cons a l ih =>
      intro hl
      have ha : isPlain a := hl a (List.mem_cons_self _ _)
      have : htmlReplaceChar a = [a] := by
        unfold isPlain at ha
        simp [htmlReplaceChar, ha]
      simp only [List.flatMap_cons, this, List.singleton_append]
      rw [ih (fun c hc => hl c (List.mem_cons_of_mem _ hc))]
  unfold htmlEscaper
  rw [key s.data h]

theorem isPlain_of_isDecimal (c : Char) (h : isDecimal c) : isPlain c := by
  unfold isDecimal at h
  simp only [List.mem_cons, List.mem_singleton, List.not_mem_nil, or_false] at h
  rcases h with rfl | rfl | rfl | rfl | rfl | rfl | rfl | rfl | rfl | rfl <;> decide

theorem htmlEscaper_formatInt (i : Int) : htmlEscaper (formatInt i) = formatInt i := by
  apply htmlEscaper_plain
  intro c hc
  cases i with
  | ofNat m => exact isPlain_of_isDecimal c (repr_decimal m c hc)
  | negSucc m =>
    simp only [formatInt, String.data_append] at hc
    rcases List.mem_append.1 hc with h | h
    · have : c = '-' := by simpa using h
      subst this
      decide
    · exact isPlain_of_isDecimal c (repr_decimal _ c h)

theorem htmlEscaper_true : htmlEscaper "true" = "true" := by decide

theorem htmlEscaper_false : htmlEscaper "false" = "false" := by decide

/-! ### Execution of the template -/

theorem walk_action (p : Pipe) (s : State) (w : String) :
    walk (.action p) s w =
      match evalPipe s p with
      | .error e => ⟨w, some e⟩
      | .ok v =>
        match printValue v with
        | .error e => ⟨w, some e⟩
        | .ok str => ⟨w ++ htmlEscaper str, none⟩ := by
  simp [walk]

theorem walk_ifNode (p : Pipe) (list : List Node) (s : State) (w : String) :
    walk (.ifNode p list) s w =
      match evalPipe s p with
      | .error e => ⟨w, some e⟩
      | .ok v => if isTrue v then walkList list s w else ⟨w, none⟩ := by
  simp [walk]

theorem walk_exportPorts (k : KindFileTemplate) (w : String) :
    walk (.rangeNode ["i", "p"] (.field "ExportPorts") [
      .text "\n  - containerPort: ",
      .action (.varField "p" "ContainerPort"),
      .text "\n    hostPort: ",
      .action (.varField "p" "HostPort"),
      .text "\n    protocol: TCP"]) { dot := k.toValue, vars := [] } w
      = ⟨w ++ concatMap portMappingEntry k.ExportPorts, none⟩ := by
  apply walk_range_ok _ _ _ _ ExportPortPair.toValue
  · simp [evalPipe, evalField, KindFileTemplate.toValue, List.lookup]
  · intro x i w
    simp [walkList, walk_text, walk_action, rangeState, evalPipe, evalField, List.lookup,
      ExportPortPair.toValue, printValue, htmlEscaper_formatInt, portMappingEntry,
      String.append_assoc]

theorem walk_workerIDs (k : KindFileTemplate) (w : String) :
    walk (.rangeNode [] (.field "WorkerIDs") [
      .text "\n- role: worker\n  image: kindest/node:v1.23.12@sha256:9402cf1330bbd3a0d097d2033fa489b2abe40d479cc5ef47d0b6a6960613148a"])
      { dot := k.toValue, vars := [] } w
      = ⟨w ++ concatMap (fun _ => workerBlock) k.WorkerIDs, none⟩ := by
  apply walk_range_ok _ _ _ _ Value.int
  · simp [evalPipe, evalField, KindFileTemplate.toValue, List.lookup]
  · intro x i w
    simp [walkList, walk_text, workerBlock]

theorem Execute_eq (k : KindFileTemplate) (hk : k.kindFileTemplate = kindDefaultFileTemplate)
    (w : String) : k.Execute w = ⟨w ++ document k, none⟩ := by
  have hsplit :
      "\n  - |\n    kind: InitConfiguration\n    nodeRegistration:\n      kubeletExtraArgs:\n        node-labels: \"ingress-ready=true\"\n  image: kindest/node:v1.23.12@sha256:9402cf1330bbd3a0d097d2033fa489b2abe40d479cc5ef47d0b6a6960613148a\n  gpus: "
        = nodeLabelPatchBlock ++ (imageLine ++ "\n  gpus: ") := by
    simp [nodeLabelPatchBlock, imageLine]
  unfold KindFileTemplate.Execute
  rw [hk, Parse_kindDefaultFileTemplate]
  simp only [parsedTree, walkList, walk_text, walk_exportPorts, walk_workerIDs, hsplit]
  cases hA : k.AuditEnabled <;> cases hG : k.UseGPU <;> cases hP : k.ExportPorts <;>
    simp [-String.reduceAppend, walkList, walk_text, walk_action, walk_ifNode,
      evalPipe, evalField, KindFileTemplate.toValue, List.lookup, printValue, isTrue,
      htmlEscaper_formatInt, htmlEscaper_true, htmlEscaper_false, document, auditPatchBlock,
      headerSection, networkingBlock, portMappings,
      auditMountBlock, String.append_assoc, hA, hG, hP, concatMap]

theorem populated_template (c : KindConfiger) :
    (populated c).kindFileTemplate = kindDefaultFileTemplate := rfl

theorem render_document (c : KindConfiger) : render c = document (populated c) := by
  have h := Execute_eq (populated c) (populated_template c) ""
  unfold render
  show ((populated c).Execute "").out = _
  rw [h]
  simp

theorem render_sections (c : KindConfiger) :
    render c = controlPlaneHead c ++ "\n  " ++ portMappings c.GetExportPorts ++ documentTail c := by
  rw [render_document]
  simp only [document, populated, KindFileTemplate.Populate, NewKindTemplate, controlPlaneHead,
    documentTail, auditMountSection, String.append_assoc, decide_eq_true_eq]

/-! ### The claims -/

/-- C1: the exported-port block. For every configuration and every sequence of
exported ports, the document is the control-plane head (ending with the `gpus:` line),
the indentation, the port block, and the rest of the document, where the head and the
rest do not depend on the ports. The port block is empty when there is no pair, so no
`extraPortMappings:` header is written; otherwise it is the header once, followed by
one entry per pair in sequence order, each entry being the lines
`- containerPort: <ContainerPort>`, `hostPort: <HostPort>`, `protocol: TCP`. For the
test's pairs (80,8081),(443,8083) the entries are 8081/80 then 8083/443. -/
theorem exportPorts_block (c : KindConfiger) (ports : List ExportPortPair) :
    render { c with GetExportPorts := ports } =
        controlPlaneHead c ++ "\n  " ++
        (match ports with
          | [] => ""
          | p :: ps => "extraPortMappings:" ++
              concatMap (fun q => "\n  - containerPort: " ++ formatInt q.ContainerPort ++
                "\n    hostPort: " ++ formatInt q.HostPort ++ "\n    protocol: TCP") (p :: ps)) ++
        documentTail c
    ∧ render { c with GetExportPorts :=
          [{ HostPort := 80, ContainerPort := 8081 }, { HostPort := 443, ContainerPort := 8083 }] } =
        controlPlaneHead c ++
        "\n  extraPortMappings:\n  - containerPort: 8081\n    hostPort: 80\n    protocol: TCP\n  - containerPort: 8083\n    hostPort: 443\n    protocol: TCP" ++
        documentTail c := by
  have hentry : (fun q : ExportPortPair => "\n  - containerPort: " ++ formatInt q.ContainerPort ++
      "\n    hostPort: " ++ formatInt q.HostPort ++ "\n    protocol: TCP") = portMappingEntry :=
    funext fun _ => rfl
  have h1 : ∀ ps : List ExportPortPair, render { c with GetExportPorts := ps } =
      controlPlaneHead c ++ "\n  " ++ portMappings ps ++ documentTail c := fun ps =>
    render_sections { c with GetExportPorts := ps }
  refine ⟨?_, ?_⟩
  · rw [h1, hentry]
    cases ports <;> simp [portMappings, concatMap]
  · rw [h1]
    have e1 : formatInt 8081 = "8081" := by decide
    have e2 : formatInt 80 = "80" := by decide
    have e3 : formatInt 8083 = "8083" := by decide
    have e4 : formatInt 443 = "443" := by decide
    simp [portMappings, concatMap, portMappingEntry, e1, e2, e3, e4, String.append_assoc]

/-- C2: worker blocks. For every configuration and every worker list with `N`
entries, the document is the control-plane node block, then exactly `N` copies of the
worker block `- role: worker` with its image line, then the networking block; with an
empty worker list the networking block follows the control-plane node directly. -/
theorem worker_blocks (c : KindConfiger) (ids : List Int) :
    render { c with GetWorkerIDs := ids } =
        controlPlaneNode c ++
        concatMap id (List.replicate ids.length
          "\n- role: worker\n  image: kindest/node:v1.23.12@sha256:9402cf1330bbd3a0d097d2033fa489b2abe40d479cc5ef47d0b6a6960613148a") ++
        ("\nnetworking:\n  apiServerAddress: " ++ htmlEscaper c.GetKubeAPIIP ++
          "\n  apiServerPort: " ++ formatInt c.GetKubeAPIPort ++ "\n")
    ∧ render { c with GetWorkerIDs := [] } =
        controlPlaneNode c ++
        ("\nnetworking:\n  apiServerAddress: " ++ htmlEscaper c.GetKubeAPIIP ++
          "\n  apiServerPort: " ++ formatInt c.GetKubeAPIPort ++ "\n") := by
  have hrep : ∀ ids : List Int, concatMap (fun _ => workerBlock) ids =
      concatMap id (List.replicate ids.length workerBlock) := by
    intro ids
    induction ids with
    | nil => rfl
    | cons x xs ih => simp [concatMap, List.replicate, ih]
  have h1 : ∀ ws : List Int, render { c with GetWorkerIDs := ws } =
      controlPlaneNode c ++ concatMap (fun _ => workerBlock) ws ++
        networkingBlock (htmlEscaper c.GetKubeAPIIP) c.GetKubeAPIPort := by
    intro ws
    rw [render_sections]
    simp only [controlPlaneNode, documentTail, controlPlaneHead, auditMountSection,
      String.append_assoc]
  refine ⟨?_, ?_⟩
  · rw [h1, hrep]
    simp only [workerBlock, networkingBlock, String.append_assoc]
  · rw [h1]
    simp [-String.reduceAppend, concatMap, networkingBlock, String.append_assoc]

/-- C3: the audit patch block. For every configuration, `kubeadmConfigPatches` of the
control-plane node opens with the audit patch block (`kind: ClusterConfiguration`, the
five audit-log `extraArgs`, the volumes `audit-policies` and `audit-logs`) exactly when
`AuditEnabled` is true, and with nothing otherwise; the `kind: InitConfiguration`
node-label patch block follows in both cases. -/
theorem audit_patch_block (c : KindConfiger) :
    render c =
      ("\nkind: Cluster\napiVersion: kind.x-k8s.io/v1alpha4\nname: " ++ htmlEscaper c.GetName ++
        "\nnodes:\n- role: control-plane\n  kubeadmConfigPatches:") ++
      (if c.AuditEnabled then
        "\n  - |\n    kind: ClusterConfiguration\n    apiServer:\n      # enable auditing flags on the API server\n      extraArgs:\n        audit-log-path: /var/log/kubernetes/kube-apiserver-audit.log\n        audit-policy-file: /etc/kubernetes/policies/audit-policy.yaml\n        audit-log-maxage: \"30\"\n        audit-log-maxbackup: \"10\"\n        audit-log-maxsize: \"100\"\n      # mount new files / directories on the control plane\n      extraVolumes:\n        - name: audit-policies\n          hostPath: /etc/kubernetes/policies\n          mountPath: /etc/kubernetes/policies\n          readOnly: true\n          pathType: \"DirectoryOrCreate\"\n        - name: \"audit-logs\"\n          hostPath: \"/var/log/kubernetes\"\n          mountPath: \"/var/log/kubernetes\"\n          readOnly: false\n          pathType: DirectoryOrCreate"
       else "") ++
      "\n  - |\n    kind: InitConfiguration\n    nodeRegistration:\n      kubeletExtraArgs:\n        node-labels: \"ingress-ready=true\"" ++
      (imageLine ++ "\n  gpus: " ++ (if c.GetGPUs > 0 then "true" else "false") ++ "\n  " ++
        portMappings c.GetExportPorts ++ documentTail c) := by
  rw [render_sections]
  simp only [controlPlaneHead, headerSection, auditPatchBlock, nodeLabelPatchBlock,
    String.append_assoc]

/-- C5: the `gpus:` line. For every configuration the control-plane node has, right
after its image line, the line `gpus: true` when `GetGPUs()` is greater than 0 and the
line `gpus: false` otherwise (zero or negative); the line holds nothing but that
boolean, so the count itself is never written. -/
theorem gpus_line (c : KindConfiger) :
    render c =
      (headerSection (htmlEscaper c.GetName) ++ (if c.AuditEnabled then auditPatchBlock else "") ++
        nodeLabelPatchBlock ++ imageLine) ++
      "\n  gpus: " ++ (if c.GetGPUs > 0 then "true" else "false") ++ "\n" ++
      ("  " ++ portMappings c.GetExportPorts ++ documentTail c) := by
  rw [render_sections]
  have h : ("\n  " : String) = "\n" ++ "  " := by decide
  simp only [controlPlaneHead, String.append_assoc, h]

/-- C8: all optional features disabled. For every configuration with GPU count 0, no
exported port, no worker, `AuditEnabled` false, empty local path and no node label, the
document is the header, the node-label patch block with `ingress-ready=true` as its
only label, the image line, the line `gpus: false`, and the networking block: one
node block (the control-plane one), no `extraMounts:` and no `extraPortMappings:`. -/
theorem all_features_disabled (x : LabelledConfig)
    (hg : x.GetGPUs = 0) (hp : x.GetExportPorts = []) (hw : x.GetWorkerIDs = [])
    (ha : x.AuditEnabled = false) (_hl : x.LocalPath = "") (_hn : x.GetNodeLabels = []) :
    render x.toKindConfiger =
      "\nkind: Cluster\napiVersion: kind.x-k8s.io/v1alpha4\nname: " ++ htmlEscaper x.GetName ++
      "\nnodes:\n- role: control-plane\n  kubeadmConfigPatches:\n  - |\n    kind: InitConfiguration\n    nodeRegistration:\n      kubeletExtraArgs:\n        node-labels: \"ingress-ready=true\"\n  image: kindest/node:v1.23.12@sha256:9402cf1330bbd3a0d097d2033fa489b2abe40d479cc5ef47d0b6a6960613148a\n  gpus: false\n  \nnetworking:\n  apiServerAddress: " ++
      htmlEscaper x.GetKubeAPIIP ++ "\n  apiServerPort: " ++ formatInt x.GetKubeAPIPort ++ "\n" := by
  have hlit :
      "\nnodes:\n- role: control-plane\n  kubeadmConfigPatches:\n  - |\n    kind: InitConfiguration\n    nodeRegistration:\n      kubeletExtraArgs:\n        node-labels: \"ingress-ready=true\"\n  image: kindest/node:v1.23.12@sha256:9402cf1330bbd3a0d097d2033fa489b2abe40d479cc5ef47d0b6a6960613148a\n  gpus: false\n  \nnetworking:\n  apiServerAddress: "
        = "\nnodes:\n- role: control-plane\n  kubeadmConfigPatches:" ++ (nodeLabelPatchBlock ++
            (imageLine ++ ("\n  gpus: " ++ ("false" ++ ("\n  " ++
              "\nnetworking:\n  apiServerAddress: "))))) := by
    simp [nodeLabelPatchBlock, imageLine]
  rw [render_sections, hlit]
  simp [-String.reduceAppend, controlPlaneHead, documentTail, auditMountSection, portMappings,
    headerSection, networkingBlock, concatMap, hg, hp, hw, ha, String.append_assoc]

/-- Witness for C8: the minimal configuration and its whole document. -/
theorem all_features_disabled_witness :
    render minimalConfig.toKindConfiger =
      "\nkind: Cluster\napiVersion: kind.x-k8s.io/v1alpha4\nname: minimal\nnodes:\n- role: control-plane\n  kubeadmConfigPatches:\n  - |\n    kind: InitConfiguration\n    nodeRegistration:\n      kubeletExtraArgs:\n        node-labels: \"ingress-ready=true\"\n  image: kindest/node:v1.23.12@sha256:9402cf1330bbd3a0d097d2033fa489b2abe40d479cc5ef47d0b6a6960613148a\n  gpus: false\n  \nnetworking:\n  apiServerAddress: 0.0.0.0\n  apiServerPort: 8443\n" :=
  (all_features_disabled minimalConfig rfl rfl rfl rfl rfl rfl).trans (by
    have e1 : htmlEscaper "minimal" = "minimal" := by decide
    have e2 : htmlEscaper "0.0.0.0" = "0.0.0.0" := by decide
    have e3 : formatInt 8443 = "8443" := by decide
    simp [minimalConfig, e1, e2, e3])

/-- For every configuration whose name and API address hold none of the characters
the escaper rewrites, the document begins with the fixed skeleton (`kind: Cluster`,
the API version, `name: <GetName()>`, `nodes:`, the one `- role: control-plane` node
and its `kubeadmConfigPatches:`), ends with the networking block
(`apiServerAddress: <GetKubeAPIIP()>`, `apiServerPort:` the port in decimal), and has
between them the body of that one control-plane node followed by the worker blocks. -/
theorem skeleton_and_networking (c : KindConfiger)
    (hname : ∀ ch ∈ c.GetName.data, isPlain ch)
    (haddr : ∀ ch ∈ c.GetKubeAPIIP.data, isPlain ch) :
    render c =
      ("\nkind: Cluster\napiVersion: kind.x-k8s.io/v1alpha4\nname: " ++ c.GetName ++
        "\nnodes:\n- role: control-plane\n  kubeadmConfigPatches:") ++
      ((if c.AuditEnabled then auditPatchBlock else "") ++ nodeLabelPatchBlock ++ imageLine ++
        "\n  gpus: " ++ (if c.GetGPUs > 0 then "true" else "false") ++ "\n  " ++
        portMappings c.GetExportPorts ++ auditMountSection c ++
        concatMap (fun _ => workerBlock) c.GetWorkerIDs ++ "\n") ++
      ("networking:\n  apiServerAddress: " ++ c.GetKubeAPIIP ++
        "\n  apiServerPort: " ++ formatInt c.GetKubeAPIPort ++ "\n") := by
  have hsplit : "\nnetworking:\n  apiServerAddress: " = "\n" ++ "networking:\n  apiServerAddress: " := by
    decide
  rw [render_sections]
  simp only [controlPlaneHead, documentTail, headerSection, networkingBlock,
    htmlEscaper_plain _ hname, htmlEscaper_plain _ haddr, hsplit, String.append_assoc]

/-- C9: evaluation at the failing input. For the name `a+b` the document begins with
the skeleton holding `name: a&#43;b`, not `name: a+b`; the rest of the skeleton and
the networking block are as the claim states. -/
theorem skeleton_name_escaped :
    render plusNameConfig.toKindConfiger =
      "\nkind: Cluster\napiVersion: kind.x-k8s.io/v1alpha4\nname: a&#43;b\nnodes:\n- role: control-plane\n  kubeadmConfigPatches:\n  - |\n    kind: InitConfiguration\n    nodeRegistration:\n      kubeletExtraArgs:\n        node-labels: \"ingress-ready=true\"\n  image: kindest/node:v1.23.12@sha256:9402cf1330bbd3a0d097d2033fa489b2abe40d479cc5ef47d0b6a6960613148a\n  gpus: false\n  \nnetworking:\n  apiServerAddress: 1.2.3.4\n  apiServerPort: 8443\n" := by
  have e1 : htmlEscaper "a+b" = "a&#43;b" := by decide
  have e2 : htmlEscaper "1.2.3.4" = "1.2.3.4" := by decide
  have e3 : formatInt 8443 = "8443" := by decide
  rw [render_sections]
  simp [plusNameConfig, controlPlaneHead, documentTail, auditMountSection, portMappings,
    headerSection, networkingBlock, concatMap, nodeLabelPatchBlock, imageLine, e1, e2, e3]

/-- C4: evaluation at the failing input. With auditing on and the policy file at
`/tmp/a+b.yaml`, the `hostPath` of the audit-policy mount is written as
`/tmp/a&#43;b.yaml`, not as the path itself. -/
theorem audit_mount_hostPath_escaped :
    render plusPathConfig.toKindConfiger =
      "\nkind: Cluster\napiVersion: kind.x-k8s.io/v1alpha4\nname: auditConfig\nnodes:\n- role: control-plane\n  kubeadmConfigPatches:" ++
      auditPatchBlock ++
      "\n  - |\n    kind: InitConfiguration\n    nodeRegistration:\n      kubeletExtraArgs:\n        node-labels: \"ingress-ready=true\"\n  image: kindest/node:v1.23.12@sha256:9402cf1330bbd3a0d097d2033fa489b2abe40d479cc5ef47d0b6a6960613148a\n  gpus: false\n  \n  # mount the local file on the control plane\n  extraMounts:\n  - hostPath: /tmp/a&#43;b.yaml\n    containerPath: /etc/kubernetes/policies/audit-policy.yaml\n    readOnly: true\nnetworking:\n  apiServerAddress: 1.2.3.4\n  apiServerPort: 8443\n" := by
  have e1 : htmlEscaper "auditConfig" = "auditConfig" := by decide
  have e2 : htmlEscaper "1.2.3.4" = "1.2.3.4" := by decide
  have e3 : formatInt 8443 = "8443" := by decide
  have e4 : htmlEscaper "/tmp/a+b.yaml" = "/tmp/a&#43;b.yaml" := by decide
  rw [render_sections]
  simp [plusPathConfig, controlPlaneHead, documentTail, auditMountSection, portMappings,
    headerSection, networkingBlock, concatMap, auditMountBlock, auditPatchBlock,
    nodeLabelPatchBlock, imageLine, e1, e2, e3, e4]

/-- C6: evaluation at the failing input. For a configuration whose `GetNodeLabels()`
is [(a,b),(c,d)], the node-label patch block holds the built-in line
`node-labels: "ingress-ready=true"` and no line for `a=b` or `c=d`: the image line
follows the built-in label directly. -/
theorem node_labels_not_rendered :
    render labelsConfig.toKindConfiger =
      "\nkind: Cluster\napiVersion: kind.x-k8s.io/v1alpha4\nname: staticconfig\nnodes:\n- role: control-plane\n  kubeadmConfigPatches:\n  - |\n    kind: InitConfiguration\n    nodeRegistration:\n      kubeletExtraArgs:\n        node-labels: \"ingress-ready=true\"\n  image: kindest/node:v1.23.12@sha256:9402cf1330bbd3a0d097d2033fa489b2abe40d479cc5ef47d0b6a6960613148a\n  gpus: false\n  \nnetworking:\n  apiServerAddress: 1.2.3.4\n  apiServerPort: 8443\n" := by
  have e1 : htmlEscaper "staticconfig" = "staticconfig" := by decide
  have e2 : htmlEscaper "1.2.3.4" = "1.2.3.4" := by decide
  have e3 : formatInt 8443 = "8443" := by decide
  rw [render_sections]
  simp [labelsConfig, controlPlaneHead, documentTail, auditMountSection, portMappings,
    headerSection, networkingBlock, concatMap, nodeLabelPatchBlock, imageLine, e1, e2, e3]

/-- C7: evaluation at the failing input. For a configuration with one GPU, local
path `/mnt/test` and one worker, the control-plane node has the line `gpus: true`,
and the worker block is `- role: worker` and its image line only: it has no `gpus:`
line, and neither node has a local-path `extraMounts` entry. -/
theorem worker_block_without_gpus_and_mount :
    render oneWorkerConfig.toKindConfiger =
      "\nkind: Cluster\napiVersion: kind.x-k8s.io/v1alpha4\nname: staticconfig\nnodes:\n- role: control-plane\n  kubeadmConfigPatches:\n  - |\n    kind: InitConfiguration\n    nodeRegistration:\n      kubeletExtraArgs:\n        node-labels: \"ingress-ready=true\"\n  image: kindest/node:v1.23.12@sha256:9402cf1330bbd3a0d097d2033fa489b2abe40d479cc5ef47d0b6a6960613148a\n  gpus: true\n  \n- role: worker\n  image: kindest/node:v1.23.12@sha256:9402cf1330bbd3a0d097d2033fa489b2abe40d479cc5ef47d0b6a6960613148a\nnetworking:\n  apiServerAddress: 1.2.3.4\n  apiServerPort: 8443\n" := by
  have e1 : htmlEscaper "staticconfig" = "staticconfig" := by decide
  have e2 : htmlEscaper "1.2.3.4" = "1.2.3.4" := by decide
  have e3 : formatInt 8443 = "8443" := by decide
  rw [render_sections]
  simp [oneWorkerConfig, controlPlaneHead, documentTail, auditMountSection, portMappings,
    headerSection, networkingBlock, concatMap, nodeLabelPatchBlock, imageLine, workerBlock,
    e1, e2, e3]

/-! ### Order of the exported ports -/

theorem formatInt_injective (i j : Int) (h : formatInt i = formatInt j) : i = j := by
  have hminus : ¬ isDecimal '-' := by decide
  cases i with
  | ofNat m =>
    cases j with
    | ofNat n =>
      simp only [formatInt] at h
      rw [repr_injective m n h]
    | negSucc n =>
      exfalso
      have h2 := congrArg String.data h
      simp only [formatInt, String.data_append] at h2
      have hmem : '-' ∈ (Nat.repr m).data := by
        rw [h2]
        simp
      exact hminus (repr_decimal m _ hmem)
  | negSucc m =>
    cases j with
    | ofNat n =>
      exfalso
      have h2 := congrArg String.data h
      simp only [formatInt, String.data_append] at h2
      have hmem : '-' ∈ (Nat.repr n).data := by
        rw [← h2]
        simp
      exact hminus (repr_decimal n _ hmem)
    | negSucc n =>
      have h2 := congrArg String.data h
      simp only [formatInt, String.data_append] at h2
      have h3 : (Nat.repr (m + 1)).data = (Nat.repr (n + 1)).data := List.append_cancel_left h2
      have h4 : m + 1 = n + 1 := repr_injective _ _ (String.ext h3)
      have h5 : m = n := by omega
      rw [h5]

theorem formatInt_no_newline (i : Int) : '\n' ∉ (formatInt i).data := by
  have hnl : ¬ isDecimal '\n' := by decide
  intro hmem
  cases i with
  | ofNat m => exact hnl (repr_decimal m _ hmem)
  | negSucc m =>
    simp only [formatInt, String.data_append] at hmem
    rcases List.mem_append.1 hmem with h | h
    · have h2 : '\n' = '-' := by simp at h
      exact absurd h2 (by decide)
    · exact hnl (repr_decimal _ _ h)

theorem split_at_first {α : Type} (c : α) (xs ys r1 r2 : List α) (hx : c ∉ xs) (hy : c ∉ ys)
    (h : xs ++ c :: r1 = ys ++ c :: r2) : xs = ys ∧ r1 = r2 := by
  induction xs generalizing ys with
  | nil =>
    cases ys with
    | nil => simpa using h
    | cons y ys =>
      exfalso
      simp only [List.nil_append, List.cons_append, List.cons.injEq] at h
      exact hy (by simp [h.1])
  | cons x xs ih =>
    cases ys with
    | nil =>
      exfalso
      simp only [List.nil_append, List.cons_append, List.cons.injEq] at h
      exact hx (by simp [h.1])
    | cons y ys =>
      simp only [List.cons_append, List.cons.injEq] at h
      have hx2 : c ∉ xs := fun hm => hx (List.mem_cons_of_mem _ hm)
      have hy2 : c ∉ ys := fun hm => hy (List.mem_cons_of_mem _ hm)
      obtain ⟨e1, e2⟩ := ih ys hx2 hy2 h.2
      exact ⟨by rw [h.1, e1], e2⟩

theorem portMappingEntry_data (p : ExportPortPair) (r : List Char) :
    (portMappingEntry p).data ++ r =
      "\n  - containerPort: ".data ++ ((formatInt p.ContainerPort).data ++
        '\n' :: ("    hostPort: ".data ++ ((formatInt p.HostPort).data ++
          '\n' :: ("    protocol: TCP".data ++ r)))) := by
  have h1 : "\n    hostPort: ".data = '\n' :: "    hostPort: ".data := by decide
  have h2 : "\n    protocol: TCP".data = '\n' :: "    protocol: TCP".data := by decide
  simp only [portMappingEntry, String.data_append, List.append_assoc, h1, h2, List.cons_append]

theorem portMappingEntry_prefix (p q : ExportPortPair) (r1 r2 : List Char)
    (h : (portMappingEntry p).data ++ r1 = (portMappingEntry q).data ++ r2) :
    p = q ∧ r1 = r2 := by
  rw [portMappingEntry_data, portMappingEntry_data] at h
  have h1 := List.append_cancel_left h
  obtain ⟨hc, h2⟩ := split_at_first '\n' _ _ _ _ (formatInt_no_newline _) (formatInt_no_newline _) h1
  have h3 := List.append_cancel_left h2
  obtain ⟨hh, h4⟩ := split_at_first '\n' _ _ _ _ (formatInt_no_newline _) (formatInt_no_newline _) h3
  have h5 := List.append_cancel_left h4
  have ec : p.ContainerPort = q.ContainerPort := formatInt_injective _ _ (String.ext hc)
  have eh : p.HostPort = q.HostPort := formatInt_injective _ _ (String.ext hh)
  refine ⟨?_, h5⟩
  cases p
  cases q
  simp_all

theorem concatMap_portMappingEntry_injective (ps qs : List ExportPortPair)
    (h : concatMap portMappingEntry ps = concatMap portMappingEntry qs) : ps = qs := by
  induction ps generalizing qs with
  | nil =>
    cases qs with
    | nil => rfl
    | cons q qs =>
      exfalso
      have h2 := congrArg String.data h
      simp only [concatMap, String.data_append] at h2
      have h3 := portMappingEntry_data q (concatMap portMappingEntry qs).data
      rw [h3] at h2
      have h4 : "\n  - containerPort: ".data = '\n' :: "  - containerPort: ".data := by decide
      rw [h4] at h2
      simp at h2
  | cons p ps ih =>
    cases qs with
    | nil =>
      exfalso
      have h2 := congrArg String.data h
      simp only [concatMap, String.data_append] at h2
      have h3 := portMappingEntry_data p (concatMap portMappingEntry ps).data
      rw [h3] at h2
      have h4 : "\n  - containerPort: ".data = '\n' :: "  - containerPort: ".data := by decide
      rw [h4] at h2
      simp at h2
    | cons q qs =>
      have h2 := congrArg String.data h
      simp only [concatMap, String.data_append] at h2
      obtain ⟨e1, e2⟩ := portMappingEntry_prefix p q _ _ h2
      rw [e1, ih qs (String.ext e2)]

theorem string_append_left_cancel (a x y : String) (h : a ++ x = a ++ y) : x = y := by
  have h2 := congrArg String.data h
  simp only [String.data_append] at h2
  exact String.ext (List.append_cancel_left h2)

theorem string_append_right_cancel (x y b : String) (h : x ++ b = y ++ b) : x = y := by
  have h2 := congrArg String.data h
  simp only [String.data_append] at h2
  exact String.ext (List.append_cancel_right h2)

/-- C10: order is kept, not sorted. For every configuration and any two sequences of
exported ports that are permutations of each other but not equal, the two documents
rendered with those sequences (everything else identical) are different strings. -/
theorem exportPorts_order_preserved (c : KindConfiger) (ps qs : List ExportPortPair)
    (hperm : ps.Perm qs) (hne : ps ≠ qs) :
    render { c with GetExportPorts := ps } ≠ render { c with GetExportPorts := qs } := by
  intro h
  have h1 : ∀ l : List ExportPortPair, render { c with GetExportPorts := l } =
      controlPlaneHead c ++ "\n  " ++ portMappings l ++ documentTail c := fun l =>
    render_sections { c with GetExportPorts := l }
  rw [h1 ps, h1 qs] at h
  have h2 := string_append_left_cancel _ _ _ (string_append_right_cancel _ _ _ h)
  have hlen : ps.isEmpty = qs.isEmpty := by
    have := hperm.length_eq
    cases ps <;> cases qs <;> simp_all
  simp only [portMappings, hlen] at h2
  exact hne (concatMap_portMappingEntry_injective ps qs (string_append_left_cancel _ _ _ h2))

/-- Witness for C10: the test's two pairs in both orders. -/
theorem exportPorts_order_preserved_witness :
    render { staticConfig.toKindConfiger with GetExportPorts :=
        [{ HostPort := 80, ContainerPort := 8081 }, { HostPort := 443, ContainerPort := 8083 }] }
      ≠ render { staticConfig.toKindConfiger with GetExportPorts :=
        [{ HostPort := 443, ContainerPort := 8083 }, { HostPort := 80, ContainerPort := 8081 }] } :=
  exportPorts_order_preserved staticConfig.toKindConfiger
    [{ HostPort := 80, ContainerPort := 8081 }, { HostPort := 443, ContainerPort := 8083 }]
    [{ HostPort := 443, ContainerPort := 8083 }, { HostPort := 80, ContainerPort := 8081 }]
    (by decide) (by decide)

/-! ### Purity, errors and the image reference -/

theorem populateAll_template (k : KindFileTemplate) (history : List Dynamic) :
    (populateAll k history).kindFileTemplate = k.kindFileTemplate := by
  induction history generalizing k with
  | nil => rfl
  | cons v vs ih =>
    simp only [populateAll, List.foldl_cons] at ih ⊢
    rw [ih]
    cases v <;> rfl

theorem Populate_overwrites (k : KindFileTemplate) (c : KindConfiger)
    (hk : k.kindFileTemplate = kindDefaultFileTemplate) :
    (k.Populate (.implementsKindConfiger c)).1 = populated c := by
  cases k
  simp only at hk
  simp [KindFileTemplate.Populate, populated, NewKindTemplate, hk]

theorem Execute_populated (c : KindConfiger) (w : String) :
    (populated c).Execute w = ⟨w ++ render c, none⟩ := by
  rw [Execute_eq (populated c) (populated_template c) w, render_document]

/-- C11: rendering is a function of the configuration alone. Whatever `Populate`
calls a fresh template has gone through before (with other configurations or with
values that are no configuration), populating it with `c` gives the same template as
populating a fresh one with `c`, executing it appends exactly `render c` to the
writer with no error, and executing it a second time appends the same bytes again. -/
theorem render_function_of_configuration (history : List Dynamic) (c : KindConfiger)
    (w : String) :
    ((populateAll NewKindTemplate history).Populate (.implementsKindConfiger c)).1 =
        (NewKindTemplate.Populate (.implementsKindConfiger c)).1
    ∧ ((populateAll NewKindTemplate history).Populate (.implementsKindConfiger c)).1.Execute w =
        ⟨w ++ render c, none⟩
    ∧ ((NewKindTemplate.Populate (.implementsKindConfiger c)).1.Execute
        ((NewKindTemplate.Populate (.implementsKindConfiger c)).1.Execute w).out) =
        ⟨w ++ render c ++ render c, none⟩ := by
  have h1 : ((populateAll NewKindTemplate history).Populate (.implementsKindConfiger c)).1 =
      populated c :=
    Populate_overwrites _ c (by rw [populateAll_template]; rfl)
  have h2 : (NewKindTemplate.Populate (.implementsKindConfiger c)).1 = populated c := rfl
  refine ⟨by rw [h1, h2], by rw [h1, Execute_populated], ?_⟩
  rw [h2, Execute_populated, Execute_populated]

/-- C12, as the claim states it, fails: with `AuditEnabled` true and an empty audit
policy path, `Populate` and `Execute` return no error and the document is written,
its audit mount having an empty `hostPath`. -/
theorem empty_audit_path_no_error :
    (NewKindTemplate.Populate (.implementsKindConfiger emptyAuditPathConfig)).2 = none
    ∧ ((NewKindTemplate.Populate (.implementsKindConfiger emptyAuditPathConfig)).1.Execute "") =
      ⟨"\nkind: Cluster\napiVersion: kind.x-k8s.io/v1alpha4\nname: auditConfig\nnodes:\n- role: control-plane\n  kubeadmConfigPatches:" ++
        auditPatchBlock ++
        "\n  - |\n    kind: InitConfiguration\n    nodeRegistration:\n      kubeletExtraArgs:\n        node-labels: \"ingress-ready=true\"\n  image: kindest/node:v1.23.12@sha256:9402cf1330bbd3a0d097d2033fa489b2abe40d479cc5ef47d0b6a6960613148a\n  gpus: false\n  \n  # mount the local file on the control plane\n  extraMounts:\n  - hostPath: \n    containerPath: /etc/kubernetes/policies/audit-policy.yaml\n    readOnly: true\nnetworking:\n  apiServerAddress: 1.2.3.4\n  apiServerPort: 8443\n",
       none⟩ := by
  have e1 : htmlEscaper "auditConfig" = "auditConfig" := by decide
  have e2 : htmlEscaper "1.2.3.4" = "1.2.3.4" := by decide
  have e3 : formatInt 8443 = "8443" := by decide
  have e4 : htmlEscaper "" = "" := by decide
  refine ⟨rfl, ?_⟩
  have h2 : (NewKindTemplate.Populate (.implementsKindConfiger emptyAuditPathConfig)).1 =
      populated emptyAuditPathConfig := rfl
  rw [h2, Execute_populated, render_sections]
  simp [emptyAuditPathConfig, controlPlaneHead, documentTail, auditMountSection, portMappings,
    headerSection, networkingBlock, concatMap, auditMountBlock, auditPatchBlock,
    nodeLabelPatchBlock, imageLine, e1, e2, e3, e4]

/-- C12, amended: `Populate` returns an error exactly when its argument does not
implement `KindConfiger`. For every configuration that implements it, whatever its
audit flag and audit policy path, `Populate` returns no error and `Execute` returns
no error and appends the document to the writer. -/
theorem populate_execute_errors (c : KindConfiger) (w : String) :
    (NewKindTemplate.Populate (.implementsKindConfiger c)).2 = none
    ∧ (NewKindTemplate.Populate (.implementsKindConfiger c)).1.Execute w = ⟨w ++ render c, none⟩
    ∧ (NewKindTemplate.Populate .other).2 = some "not implements kindConfig interface"
    ∧ (∀ v : Dynamic, (NewKindTemplate.Populate v).2 = none ↔
        ∃ d, v = .implementsKindConfiger d) := by
  refine ⟨rfl, ?_, rfl, ?_⟩
  · have h2 : (NewKindTemplate.Populate (.implementsKindConfiger c)).1 = populated c := rfl
    rw [h2, Execute_populated]
  · intro v
    cases v with
    | implementsKindConfiger d => simp [KindFileTemplate.Populate]
    | other => simp [KindFileTemplate.Populate]

/-- C13: evaluation at the failing input. The specification asks for Kubernetes
v1.25.11 with its digest, and the document carries the image
`kindest/node:v1.23.12@sha256:9402cf13...148a` on the control-plane node and on the
worker block; the same specification asking for v1.23.17 renders the very same
document. -/
theorem requested_version_not_rendered :
    versionConfigA.NodeVersion =
        { Version := "v1.25.11"
          Sha256 := "227fa11ce74ea76a0474eeefb84cb75d8dad1b08638371ecf0e86259b35be0c8" }
    ∧ render versionConfigA.toKindConfiger =
        "\nkind: Cluster\napiVersion: kind.x-k8s.io/v1alpha4\nname: staticconfig\nnodes:\n- role: control-plane\n  kubeadmConfigPatches:\n  - |\n    kind: InitConfiguration\n    nodeRegistration:\n      kubeletExtraArgs:\n        node-labels: \"ingress-ready=true\"\n  image: kindest/node:v1.23.12@sha256:9402cf1330bbd3a0d097d2033fa489b2abe40d479cc5ef47d0b6a6960613148a\n  gpus: false\n  \n- role: worker\n  image: kindest/node:v1.23.12@sha256:9402cf1330bbd3a0d097d2033fa489b2abe40d479cc5ef47d0b6a6960613148a\nnetworking:\n  apiServerAddress: 1.2.3.4\n  apiServerPort: 8443\n"
    ∧ versionConfigB.NodeVersion ≠ versionConfigA.NodeVersion
    ∧ render versionConfigB.toKindConfiger = render versionConfigA.toKindConfiger := by
  have e1 : htmlEscaper "staticconfig" = "staticconfig" := by decide
  have e2 : htmlEscaper "1.2.3.4" = "1.2.3.4" := by decide
  have e3 : formatInt 8443 = "8443" := by decide
  refine ⟨rfl, ?_, by decide, rfl⟩
  rw [render_sections]
  simp [versionConfigA, controlPlaneHead, documentTail, auditMountSection, portMappings,
    headerSection, networkingBlock, concatMap, nodeLabelPatchBlock, imageLine, workerBlock,
    e1, e2, e3]

/-- What the code writes on the `image:` lines for any specification: the text
`kindest/node:v1.23.12@sha256:9402cf13...148a`, on the control-plane node and on each
worker block, whatever the `NodeVersion` of the specification. -/
theorem image_reference_fixed (x : VersionedConfig) :
    render x.toKindConfiger =
        (headerSection (htmlEscaper x.GetName) ++ (if x.AuditEnabled then auditPatchBlock else "") ++
          nodeLabelPatchBlock) ++
        "\n  image: kindest/node:v1.23.12@sha256:9402cf1330bbd3a0d097d2033fa489b2abe40d479cc5ef47d0b6a6960613148a" ++
        ("\n  gpus: " ++ (if x.GetGPUs > 0 then "true" else "false") ++ "\n  " ++
          portMappings x.GetExportPorts ++ auditMountSection x.toKindConfiger) ++
        concatMap (fun _ => "\n- role: worker" ++
          "\n  image: kindest/node:v1.23.12@sha256:9402cf1330bbd3a0d097d2033fa489b2abe40d479cc5ef47d0b6a6960613148a")
          x.GetWorkerIDs ++
        networkingBlock (htmlEscaper x.GetKubeAPIIP) x.GetKubeAPIPort
    ∧ ∀ y : VersionedConfig, y.toKindConfiger = x.toKindConfiger →
        render y.toKindConfiger = render x.toKindConfiger := by
  refine ⟨?_, fun y h => by rw [h]⟩
  have hw : (fun _ : Int => "\n- role: worker" ++
      "\n  image: kindest/node:v1.23.12@sha256:9402cf1330bbd3a0d097d2033fa489b2abe40d479cc5ef47d0b6a6960613148a")
      = fun _ => workerBlock := by
    funext _
    simp [workerBlock]
  rw [render_sections, hw]
  simp only [controlPlaneHead, documentTail, imageLine, String.append_assoc]




/-! ### The command layer -/

theorem newRunCmd_of_parse_error {W P L F M : Type} (col : Collaborators W P L F M)
    (flags : Flags) (w : W) (err : GoError)
    (hp : col.ParseProvisioner flags.provisionerStr = .error err) :
    newRunCmd col flags w =
      ⟨(none, some err), [.ParseProvisioner flags.provisionerStr (.error err)], w⟩ := by
  simp [newRunCmd, hp]

theorem newRunCmd_of_factory_error {W P L F M : Type} (col : Collaborators W P L F M)
    (flags : Flags) (w w1 : W) (p : P) (err : GoError)
    (hp : col.ParseProvisioner flags.provisionerStr = .ok p)
    (hf : col.NewMachineFactory p col.NewLogger flags.guestRootDir flags.verbose w =
      (.error err, w1)) :
    newRunCmd col flags w =
      ⟨(none, some err),
        [.ParseProvisioner flags.provisionerStr (.ok p), .NewLogger col.NewLogger,
          .NewMachineFactory p col.NewLogger flags.guestRootDir flags.verbose (.error err)],
        w1⟩ := by
  simp [newRunCmd, hp, hf]

theorem newRunCmd_of_factory_ok {W P L F M : Type} (col : Collaborators W P L F M)
    (flags : Flags) (w w1 : W) (p : P) (vag : F)
    (hp : col.ParseProvisioner flags.provisionerStr = .ok p)
    (hf : col.NewMachineFactory p col.NewLogger flags.guestRootDir flags.verbose w =
      (.ok vag, w1)) :
    newRunCmd col flags w =
      ⟨(some { vag := vag, logger := col.NewLogger }, none),
        [.ParseProvisioner flags.provisionerStr (.ok p), .NewLogger col.NewLogger,
          .NewMachineFactory p col.NewLogger flags.guestRootDir flags.verbose (.ok vag)],
        w1⟩ := by
  simp [newRunCmd, hp, hf]

/-- C16: an unknown provisioner token fails construction. For every token that
`ParseProvisioner` rejects with an error, `newRunCmd` returns a nil `runCmd` and that
error, makes no call of `NewMachineFactory` and leaves the world as it was; whenever
`NewMachineFactory` returns an error, `newRunCmd` returns a nil `runCmd` and that
error; and a `runCmd` is returned only with the factory that `NewMachineFactory`
gave for the provisioner parsed from the token, never with a default one. -/
theorem newRunCmd_unknown_provisioner {W P L F M : Type} (col : Collaborators W P L F M)
    (flags : Flags) (w : W) :
    (∀ e, col.ParseProvisioner flags.provisionerStr = .error e →
      (newRunCmd col flags w).result = (none, some e)
      ∧ (∀ p l d v r, Event.NewMachineFactory p l d v r ∉ (newRunCmd col flags w).calls)
      ∧ (newRunCmd col flags w).world = w)
    ∧ (∀ p l d v e, Event.NewMachineFactory p l d v (.error e) ∈ (newRunCmd col flags w).calls →
      (newRunCmd col flags w).result = (none, some e))
    ∧ (∀ p e, col.ParseProvisioner flags.provisionerStr = .ok p →
      (col.NewMachineFactory p col.NewLogger flags.guestRootDir flags.verbose w).1 = .error e →
      (newRunCmd col flags w).result = (none, some e))
    ∧ (∀ rc, (newRunCmd col flags w).result.1 = some rc →
      ∃ p, col.ParseProvisioner flags.provisionerStr = .ok p
        ∧ (col.NewMachineFactory p col.NewLogger flags.guestRootDir flags.verbose w).1 = .ok rc.vag
        ∧ (newRunCmd col flags w).result.2 = none) := by
  cases hp : col.ParseProvisioner flags.provisionerStr with
  | error err =>
    rw [newRunCmd_of_parse_error col flags w err hp]
    simp
  | ok p =>
    rcases hf : col.NewMachineFactory p col.NewLogger flags.guestRootDir flags.verbose w
      with ⟨ret, w1⟩
    cases ret with
    | error err =>
      rw [newRunCmd_of_factory_error col flags w w1 p err hp hf]
      refine ⟨by simp, ?_, ?_, by simp⟩
      · intro p1 l d v e hmem
        simp only [List.mem_cons, List.mem_singleton, List.not_mem_nil, or_false, reduceCtorEq,
          false_or, Event.NewMachineFactory.injEq, Except.error.injEq] at hmem
        rw [hmem.2.2.2.2]
      · intro p1 e hp1 hfe
        cases hp1
        rw [hf] at hfe
        simp only [Except.error.injEq] at hfe
        rw [hfe]
    | ok vag =>
      rw [newRunCmd_of_factory_ok col flags w w1 p vag hp hf]
      refine ⟨by simp, ?_, ?_, ?_⟩
      · intro p1 l d v e hmem
        simp at hmem
      · intro p1 e hp1 hfe
        cases hp1
        rw [hf] at hfe
        simp at hfe
      · intro rc hrc
        simp only [Option.some.injEq] at hrc
        refine ⟨p, rfl, ?_, rfl⟩
        rw [hf, ← hrc]

/-- Witness for C16: the token `qemu` with the stand-in collaborators. -/
theorem newRunCmd_unknown_provisioner_witness :
    (newRunCmd sampleCollaborators unknownProvisionerFlags []).result =
        (none, some { msg := "unknown provisioner" })
    ∧ (∀ p l d v r, Event.NewMachineFactory p l d v r ∉
        (newRunCmd sampleCollaborators unknownProvisionerFlags []).calls)
    ∧ (newRunCmd sampleCollaborators unknownProvisionerFlags []).world = [] :=
  (newRunCmd_unknown_provisioner sampleCollaborators unknownProvisionerFlags []).1
    { msg := "unknown provisioner" } rfl

theorem vagrantExport_target_and_result {W F M : Type} (r : vagrantRunCmd F)
    (col : VagrantCollaborators W F M) (flags : VagrantFlags) (name path : String) (w : W) :
    (r.Export col flags name path w).calls.head? =
        some (.NewMachine r.vag name none (col.NewMachine r.vag name none w).1)
    ∧ (∀ m p o ret,
        VagrantEvent.ExportKubeConfig m p o ret ∈ (r.Export col flags name path w).calls →
        p = (if path = "" then col.filepathJoin [flags.vagrantRootDir, name, "kubeconfig"]
              else path)
        ∧ o = flags.forceOverwrite ∧ m = (col.NewMachine r.vag name none w).1)
    ∧ (∃ ret, VagrantEvent.ExportKubeConfig (col.NewMachine r.vag name none w).1
          (if path = "" then col.filepathJoin [flags.vagrantRootDir, name, "kubeconfig"]
            else path)
          flags.forceOverwrite ret ∈ (r.Export col flags name path w).calls
        ∧ (r.Export col flags name path w).result = ret)
    ∧ (r.Export col flags name path w).result =
        (col.ExportKubeConfig (col.NewMachine r.vag name none w).1
          (if path = "" then col.filepathJoin [flags.vagrantRootDir, name, "kubeconfig"]
            else path)
          flags.forceOverwrite (col.NewMachine r.vag name none w).2).1 := by
  rcases hn : col.NewMachine r.vag name none w with ⟨m, w1⟩
  rcases he : col.ExportKubeConfig m
    (if path = "" then col.filepathJoin [flags.vagrantRootDir, name, "kubeconfig"] else path)
    flags.forceOverwrite w1 with ⟨ret, w2⟩
  cases ret with
  | some err =>
    simp [vagrantRunCmd.Export, hn, he]
    aesop
  | none =>
    simp [vagrantRunCmd.Export, hn, he]
    aesop

theorem handle_of_up_ok {W P L F M V T : Type} (col : AddCollaborators W P L F M V T)
    (flags : AddFlags) (logger : L) (machineName : String) (w w1 w2 w3 : W) (p : P) (vag : F)
    (m : M) (hp : col.MustParseProvisioner flags.provisionerStr = some p)
    (hf : col.newMachineFactoryWithProvisioner p logger w = (.ok vag, w1))
    (hg : ensureNoGPUForVagrant col vag flags.useGPUs = none)
    (hn : col.NewMachine vag machineName (addConfigOf col flags logger) w1 = (.ok m, w2))
    (hu : col.Up m w2 = (none, w3)) :
    handle col flags logger machineName w =
      ⟨.returned (col.AddPlugins m (installedPluginsOf col flags) w3).1,
        [.MustParseProvisioner flags.provisionerStr (some p),
          .newMachineFactoryWithProvisioner p logger (.ok vag),
          .NewMachine vag machineName (addConfigOf col flags logger) (.ok m),
          .Up m none,
          .AddPlugins m (installedPluginsOf col flags)
            (col.AddPlugins m (installedPluginsOf col flags) w3).1],
        (col.AddPlugins m (installedPluginsOf col flags) w3).2⟩ := by
  simp [handle, hp, hf, hg, hn, hu]

theorem handle_of_up_error {W P L F M V T : Type} (col : AddCollaborators W P L F M V T)
    (flags : AddFlags) (logger : L) (machineName : String) (w w1 w2 w3 : W) (p : P) (vag : F)
    (m : M) (err : GoError) (hp : col.MustParseProvisioner flags.provisionerStr = some p)
    (hf : col.newMachineFactoryWithProvisioner p logger w = (.ok vag, w1))
    (hg : ensureNoGPUForVagrant col vag flags.useGPUs = none)
    (hn : col.NewMachine vag machineName (addConfigOf col flags logger) w1 = (.ok m, w2))
    (hu : col.Up m w2 = (some err, w3)) :
    handle col flags logger machineName w =
      ⟨.returned (some err),
        [.MustParseProvisioner flags.provisionerStr (some p),
          .newMachineFactoryWithProvisioner p logger (.ok vag),
          .NewMachine vag machineName (addConfigOf col flags logger) (.ok m),
          .Up m (some err),
          .Errorf logger "cmdadd: add node (%s) failed, err:%+v\n" [machineName, err.msg]],
        col.Errorf logger "cmdadd: add node (%s) failed, err:%+v\n" [machineName, err.msg] w3⟩ := by
  simp [handle, hp, hf, hg, hn, hu]

theorem handle_of_newMachine_error {W P L F M V T : Type} (col : AddCollaborators W P L F M V T)
    (flags : AddFlags) (logger : L) (machineName : String) (w w1 w2 : W) (p : P) (vag : F)
    (err : GoError) (hp : col.MustParseProvisioner flags.provisionerStr = some p)
    (hf : col.newMachineFactoryWithProvisioner p logger w = (.ok vag, w1))
    (hg : ensureNoGPUForVagrant col vag flags.useGPUs = none)
    (hn : col.NewMachine vag machineName (addConfigOf col flags logger) w1 = (.error err, w2)) :
    handle col flags logger machineName w =
      ⟨.returned (some err),
        [.MustParseProvisioner flags.provisionerStr (some p),
          .newMachineFactoryWithProvisioner p logger (.ok vag),
          .NewMachine vag machineName (addConfigOf col flags logger) (.error err)],
        w2⟩ := by
  simp [handle, hp, hf, hg, hn]

theorem handle_of_gpu_error {W P L F M V T : Type} (col : AddCollaborators W P L F M V T)
    (flags : AddFlags) (logger : L) (machineName : String) (w w1 : W) (p : P) (vag : F)
    (err : GoError) (hp : col.MustParseProvisioner flags.provisionerStr = some p)
    (hf : col.newMachineFactoryWithProvisioner p logger w = (.ok vag, w1))
    (hg : ensureNoGPUForVagrant col vag flags.useGPUs = some err) :
    handle col flags logger machineName w =
      ⟨.returned (some err),
        [.MustParseProvisioner flags.provisionerStr (some p),
          .newMachineFactoryWithProvisioner p logger (.ok vag)],
        w1⟩ := by
  simp [handle, hp, hf, hg]

theorem handle_of_factory_error {W P L F M V T : Type} (col : AddCollaborators W P L F M V T)
    (flags : AddFlags) (logger : L) (machineName : String) (w w1 : W) (p : P)
    (err : GoError) (hp : col.MustParseProvisioner flags.provisionerStr = some p)
    (hf : col.newMachineFactoryWithProvisioner p logger w = (.error err, w1)) :
    handle col flags logger machineName w =
      ⟨.returned (some err),
        [.MustParseProvisioner flags.provisionerStr (some p),
          .newMachineFactoryWithProvisioner p logger (.error err)],
        w1⟩ := by
  simp [handle, hp, hf]

theorem handle_of_panic {W P L F M V T : Type} (col : AddCollaborators W P L F M V T)
    (flags : AddFlags) (logger : L) (machineName : String) (w : W)
    (hp : col.MustParseProvisioner flags.provisionerStr = none) :
    handle col flags logger machineName w =
      ⟨.panicked, [.MustParseProvisioner flags.provisionerStr none], w⟩ := by
  simp [handle, hp]

/-- C15: plugins are applied only after `Up` succeeds. For every machine name, flag
setting and world of the add handler, once the factory is built and the GPU check
passes: when `NewMachine` returns an error, the handler returns that error, leaves
the world `NewMachine` left and makes no call of `AddPlugins`; when `Up`, called on
the machine in the world `NewMachine` left, returns an error, the handler returns
that error and makes no call of `AddPlugins`; when `Up` succeeds, the handler calls
`AddPlugins` exactly once, on that machine in the world `Up` left, with the list
holding the kubeflow plugin (default password and version from the flags) when
`withKubeflow` is true and the empty list when it is false, returns what that call
returns and leaves the world it left; and every `AddPlugins` call comes from such a
successful `Up`. -/
theorem plugins_only_after_up {W P L F M V T : Type} (col : AddCollaborators W P L F M V T)
    (flags : AddFlags) (logger : L) (machineName : String) (w : W) :
    (∀ p vag w1 e w2, col.MustParseProvisioner flags.provisionerStr = some p →
        col.newMachineFactoryWithProvisioner p logger w = (.ok vag, w1) →
        ensureNoGPUForVagrant col vag flags.useGPUs = none →
        col.NewMachine vag machineName (addConfigOf col flags logger) w1 = (.error e, w2) →
        (handle col flags logger machineName w).result = .returned (some e)
        ∧ (handle col flags logger machineName w).world = w2
        ∧ (handle col flags logger machineName w).calls.filter AddEvent.isAddPlugins = [])
    ∧ (∀ p vag w1 m w2 e w3, col.MustParseProvisioner flags.provisionerStr = some p →
        col.newMachineFactoryWithProvisioner p logger w = (.ok vag, w1) →
        ensureNoGPUForVagrant col vag flags.useGPUs = none →
        col.NewMachine vag machineName (addConfigOf col flags logger) w1 = (.ok m, w2) →
        col.Up m w2 = (some e, w3) →
        (handle col flags logger machineName w).result = .returned (some e)
        ∧ (handle col flags logger machineName w).world =
            col.Errorf logger "cmdadd: add node (%s) failed, err:%+v\n" [machineName, e.msg] w3
        ∧ (handle col flags logger machineName w).calls.filter AddEvent.isAddPlugins = [])
    ∧ (∀ p vag w1 m w2 w3, col.MustParseProvisioner flags.provisionerStr = some p →
        col.newMachineFactoryWithProvisioner p logger w = (.ok vag, w1) →
        ensureNoGPUForVagrant col vag flags.useGPUs = none →
        col.NewMachine vag machineName (addConfigOf col flags logger) w1 = (.ok m, w2) →
        col.Up m w2 = (none, w3) →
        (handle col flags logger machineName w).result =
            .returned (col.AddPlugins m
              (if flags.withKubeflow then
                [{ withKubeflowDefaultPassword := flags.withKubeflowDefaultPassword
                   kubeflowVersion := col.NewTypePluginVersion flags.withKubeflowVersion }]
               else []) w3).1
        ∧ (handle col flags logger machineName w).world =
            (col.AddPlugins m
              (if flags.withKubeflow then
                [{ withKubeflowDefaultPassword := flags.withKubeflowDefaultPassword
                   kubeflowVersion := col.NewTypePluginVersion flags.withKubeflowVersion }]
               else []) w3).2
        ∧ (handle col flags logger machineName w).calls.filter AddEvent.isAddPlugins =
            [.AddPlugins m
              (if flags.withKubeflow then
                [{ withKubeflowDefaultPassword := flags.withKubeflowDefaultPassword
                   kubeflowVersion := col.NewTypePluginVersion flags.withKubeflowVersion }]
               else [])
              (col.AddPlugins m
                (if flags.withKubeflow then
                  [{ withKubeflowDefaultPassword := flags.withKubeflowDefaultPassword
                     kubeflowVersion := col.NewTypePluginVersion flags.withKubeflowVersion }]
                 else []) w3).1]
        ∧ ∃ before, (handle col flags logger machineName w).calls =
            before ++ [.Up m none,
              .AddPlugins m
                (if flags.withKubeflow then
                  [{ withKubeflowDefaultPassword := flags.withKubeflowDefaultPassword
                     kubeflowVersion := col.NewTypePluginVersion flags.withKubeflowVersion }]
                 else [])
                (col.AddPlugins m
                  (if flags.withKubeflow then
                    [{ withKubeflowDefaultPassword := flags.withKubeflowDefaultPassword
                       kubeflowVersion := col.NewTypePluginVersion flags.withKubeflowVersion }]
                   else []) w3).1])
    ∧ (∀ m ps ret,
        AddEvent.AddPlugins m ps ret ∈ (handle col flags logger machineName w).calls →
        ∃ p vag w1 w2 w3, col.MustParseProvisioner flags.provisionerStr = some p
          ∧ col.newMachineFactoryWithProvisioner p logger w = (.ok vag, w1)
          ∧ ensureNoGPUForVagrant col vag flags.useGPUs = none
          ∧ col.NewMachine vag machineName (addConfigOf col flags logger) w1 = (.ok m, w2)
          ∧ col.Up m w2 = (none, w3)
          ∧ ret = (col.AddPlugins m ps w3).1) := by
  refine ⟨?_, ?_, ?_, ?_⟩
  · intro p vag w1 e w2 hp hf hg hn
    rw [handle_of_newMachine_error col flags logger machineName w w1 w2 p vag e hp hf hg hn]
    simp [AddEvent.isAddPlugins]
  · intro p vag w1 m w2 e w3 hp hf hg hn hu
    rw [handle_of_up_error col flags logger machineName w w1 w2 w3 p vag m e hp hf hg hn hu]
    simp [AddEvent.isAddPlugins]
  · intro p vag w1 m w2 w3 hp hf hg hn hu
    have h := handle_of_up_ok col flags logger machineName w w1 w2 w3 p vag m hp hf hg hn hu
    simp only [installedPluginsOf] at h
    rw [h]
    refine ⟨rfl, rfl, by simp [AddEvent.isAddPlugins], ?_⟩
    exact ⟨[.MustParseProvisioner flags.provisionerStr (some p),
      .newMachineFactoryWithProvisioner p logger (.ok vag),
      .NewMachine vag machineName (addConfigOf col flags logger) (.ok m)], by simp⟩
  · intro m ps ret hmem
    cases hp : col.MustParseProvisioner flags.provisionerStr with
    | none =>
      rw [handle_of_panic col flags logger machineName w hp] at hmem
      simp at hmem
    | some p =>
      rcases hf : col.newMachineFactoryWithProvisioner p logger w with ⟨retf, w1⟩
      cases retf with
      | error err =>
        rw [handle_of_factory_error col flags logger machineName w w1 p err hp hf] at hmem
        simp at hmem
      | ok vag =>
        cases hg : ensureNoGPUForVagrant col vag flags.useGPUs with
        | some err =>
          rw [handle_of_gpu_error col flags logger machineName w w1 p vag err hp hf hg] at hmem
          simp at hmem
        | none =>
          rcases hn : col.NewMachine vag machineName (addConfigOf col flags logger) w1
            with ⟨retn, w2⟩
          cases retn with
          | error err =>
            rw [handle_of_newMachine_error col flags logger machineName w w1 w2 p vag err
              hp hf hg hn] at hmem
            simp at hmem
          | ok m0 =>
            rcases hu : col.Up m0 w2 with ⟨retu, w3⟩
            cases retu with
            | some err =>
              rw [handle_of_up_error col flags logger machineName w w1 w2 w3 p vag m0 err
                hp hf hg hn hu] at hmem
              simp at hmem
            | none =>
              rw [handle_of_up_ok col flags logger machineName w w1 w2 w3 p vag m0
                hp hf hg hn hu] at hmem
              simp only [List.mem_cons, List.mem_singleton, reduceCtorEq, false_or, or_false,
                AddEvent.AddPlugins.injEq, List.not_mem_nil] at hmem
              obtain ⟨hm, hps, hret⟩ := hmem
              subst hm
              subst hps
              exact ⟨p, vag, w1, w2, w3, rfl, hf, hg, hn, hu, hret⟩

/-- Witness for C15: with the stand-in collaborators and the default flags, adding
the machine `down`, whose `Up` fails, returns the error of `Up` and applies no
plugin. -/
theorem plugins_only_after_up_witness :
    (handle sampleAddCollaborators defaultAddFlags () "down" []).result =
        .returned (some { msg := "up failed" })
    ∧ (handle sampleAddCollaborators defaultAddFlags () "down" []).world =
        sampleAddCollaborators.Errorf () "cmdadd: add node (%s) failed, err:%+v\n"
          ["down", "up failed"] []
    ∧ (handle sampleAddCollaborators defaultAddFlags () "down" []).calls.filter
        AddEvent.isAddPlugins = [] :=
  (plugins_only_after_up sampleAddCollaborators defaultAddFlags () "down" []).2.1
    "docker" "docker" [] "down" [] { msg := "up failed" } [] rfl rfl rfl rfl rfl

end Multikind
